import Mathlib

/-!
# GoToSocial federation activity-processing pipeline — shallow embedding

This file embeds the federation slice of the repository in Lean 4:

* `internal/processing/fromclientapi.go` — the outbound dispatcher
  (`ProcessFromClientAPI`) and the per-verb envelope builders
  (`federateStatus`, `federateUnfollow`, …), plus the federating
  database's `Followers` collection builder;
* the federation read endpoints (`GetFediUser`, `GetFediFollowers`,
  `GetFediFollowing`, `GetFediStatus`, `GetFediStatusReplies`).

External collaborators (database, signature verification, the type
converter `tc`, the federating actor) are modelled as fields of an
environment record `Env`: each is an arbitrary pure function whose
failures are explicit `Except` values.  Side effects performed by the
dispatcher (timeline updates, notifications, deletions, calls to the
federating actor's `Send`) are recorded in an explicit effect trace.
`url.Parse` is modelled as total (URLs are plain strings in the model);
Go error *messages* are carried only where a claim depends on them.
-/

namespace GTS

/-- Error raised by a collaborator call.  `noEntries` models
`db.ErrNoEntries`; every other error is `other` with its message. -/
inductive Err
  | noEntries
  | other (msg : String)
  deriving DecidableEq, Repr

/-- `gtsmodel.Account` — the fields the federation slice reads.
`Domain = ""` means the account is local. -/
structure Account where
  ID : String
  Username : String
  URI : String
  URL : String
  Domain : String
  OutboxURI : String
  deriving DecidableEq, Repr

/-- `gtsmodel.Visibility` values used by the replies filter. -/
inductive Visibility
  | public
  | unlocked
  | followersOnly
  | mutualsOnly
  | direct
  deriving DecidableEq, Repr

/-- `gtsmodel.Status` — the fields the federation slice reads. -/
structure Status where
  ID : String
  URI : String
  AccountID : String
  Account : Option GTS.Account
  Visibility : Visibility
  Federated : Bool
  AttachmentIDs : List String
  MentionIDs : List String
  deriving DecidableEq, Repr

/-- `gtsmodel.Follow`. -/
structure Follow where
  ID : String
  AccountID : String
  TargetAccountID : String
  Account : Option GTS.Account
  URI : String
  deriving DecidableEq, Repr

/-- `gtsmodel.FollowRequest`. -/
structure FollowRequest where
  ID : String
  AccountID : String
  TargetAccountID : String
  URI : String
  deriving DecidableEq, Repr

/-- `gtsmodel.StatusFave`. -/
structure StatusFave where
  ID : String
  AccountID : String
  TargetAccountID : String
  StatusID : String
  URI : String
  deriving DecidableEq, Repr

/-- `gtsmodel.Block`. -/
structure Block where
  ID : String
  AccountID : String
  TargetAccountID : String
  Account : Option GTS.Account
  TargetAccount : Option GTS.Account
  URI : String
  deriving DecidableEq, Repr

/-- `gtsmodel.DomainBlock` — only its ID is read by the dispatcher. -/
structure DomainBlock where
  ID : String
  Domain : String
  deriving DecidableEq, Repr

/-- The polymorphic `GTSModel` payload of a client action message,
modelled as a tagged variant of the concrete model types. -/
inductive GTSModel
  | status (s : Status)
  | followRequest (fr : FollowRequest)
  | follow (f : Follow)
  | fave (f : StatusFave)
  | block (b : Block)
  | account (a : Account)
  | domainBlock (d : DomainBlock)
  deriving DecidableEq, Repr

/-- `messages.FromClientAPI` — the action message the dispatcher consumes. -/
structure FromClientAPI where
  APObjectType : String
  APActivityType : String
  GTSModel : GTSModel
  OriginAccount : Account
  TargetAccount : Account
  deriving DecidableEq, Repr

/-! `ap` package activity/object type constants. -/

def ActivityCreate : String := "Create"
def ActivityUpdate : String := "Update"
def ActivityAccept : String := "Accept"
def ActivityUndo : String := "Undo"
def ActivityDelete : String := "Delete"
def ActivityFollow : String := "Follow"
def ActivityLike : String := "Like"
def ActivityAnnounce : String := "Announce"
def ActivityBlock : String := "Block"
def ObjectNote : String := "Note"
def ObjectProfile : String := "Profile"
def ActorPerson : String := "Person"

/-! ## ActivityStreams values

The go-fed `vocab` activity values, restricted to the properties this
slice reads or writes.  Properties holding IRIs are lists of IRI
strings (a property may hold several values). -/

/-- An `ActivityStreamsNote` as produced by `tc.StatusToAS`. -/
structure ASNote where
  id : String
  attributedTo : String
  toRecipients : List String
  cc : List String
  deriving DecidableEq, Repr

/-- An `ActivityStreamsFollow` as produced by `tc.FollowToAS`. -/
structure ASFollow where
  actor : List String
  object : List String
  toRecipients : List String
  deriving DecidableEq, Repr

/-- An `ActivityStreamsLike` as produced by `tc.FaveToAS`. -/
structure ASLike where
  actor : List String
  object : List String
  toRecipients : List String
  deriving DecidableEq, Repr

/-- An `ActivityStreamsAnnounce` as produced by `tc.BoostToAS`. -/
structure ASAnnounce where
  actor : List String
  object : List String
  toRecipients : List String
  cc : List String
  deriving DecidableEq, Repr

/-- An `ActivityStreamsBlock` as produced by `tc.BlockToAS`. -/
structure ASBlock where
  actor : List String
  object : List String
  toRecipients : List String
  deriving DecidableEq, Repr

/-- An `ActivityStreamsPerson` as produced by `tc.AccountToAS` /
`tc.AccountToASMinimal`.  Its internal shape is irrelevant to the
claims; it is identified by an opaque representation string. -/
structure ASPerson where
  iri : String
  rep : String
  deriving DecidableEq, Repr

/-- An `ActivityStreamsUpdate` as produced by `tc.WrapPersonInUpdate`. -/
structure ASUpdate where
  actor : List String
  object : ASPerson
  toRecipients : List String
  cc : List String
  deriving DecidableEq, Repr

/-- The value appended to an `Undo`'s object property. -/
inductive ASWrapped
  | follow (f : ASFollow)
  | like (l : ASLike)
  | block (b : ASBlock)
  | announce (a : ASAnnounce)
  deriving DecidableEq, Repr

/-- An `ActivityStreamsUndo` built by the envelope builders.  A `to`/`cc`
property that the code never sets is the empty list. -/
structure ASUndo where
  actor : List String
  object : ASWrapped
  toRecipients : List String
  cc : List String
  deriving DecidableEq, Repr

/-- An `ActivityStreamsAccept` built by `federateAcceptFollowRequest`. -/
structure ASAccept where
  actor : List String
  object : ASFollow
  toRecipients : List String
  deriving DecidableEq, Repr

/-- An `ActivityStreamsDelete` built by `federateStatusDelete`. -/
structure ASDelete where
  actor : List String
  object : ASNote
  toRecipients : List String
  cc : List String
  deriving DecidableEq, Repr

/-- Any activity value handed to the federating actor's `Send`. -/
inductive Activity
  | note (n : ASNote)
  | follow (f : ASFollow)
  | like (l : ASLike)
  | announce (a : ASAnnounce)
  | block (b : ASBlock)
  | person (p : ASPerson)
  | update (u : ASUpdate)
  | undo (u : ASUndo)
  | accept (a : ASAccept)
  | delete (d : ASDelete)
  deriving DecidableEq, Repr

/-- One observable side effect performed by the dispatcher: a call to a
local collaborator, or a call to the federating actor's `Send`. -/
inductive Effect
  | timelineStatus (statusID : String)
  | notifyStatus (statusID : String)
  | notifyFollowRequest (followRequestID : String)
  | notifyFave (faveID : String)
  | notifyAnnounce (statusID : String)
  | notifyFollow (followID : String)
  | wipeStatuses (accountID targetAccountID : String)
  | deleteMedia (attachmentID : String)
  | deleteMention (mentionID : String)
  | deleteNotifications (statusID : String)
  | deleteStatusFromTimelines (statusID : String)
  | accountDelete (targetAccountID origin : String)
  | send (outboxIRI : String) (activity : Activity)
  deriving DecidableEq, Repr

/-- A parsed URL.  `url.Parse` is modelled as total: `raw` is the
string form; `queryOnlyOtherAccounts` is the value of the
`only_other_accounts` query parameter (empty when absent). -/
structure URL where
  raw : String
  queryOnlyOtherAccounts : String
  deriving DecidableEq, Repr

/-- Model of `url.Parse` applied to a stored URI (no query part). -/
def urlParse (s : String) : URL := { raw := s, queryOnlyOtherAccounts := "" }

/-- A page of a status's replies collection, as serialized by the type
converter. -/
structure RepliesPage where
  id : String
  onlyOtherAccounts : Bool
  minID : String
  items : List String
  deriving DecidableEq, Repr

/-- The outer replies collection, as serialized by the type converter:
no items of its own, only a link to the first page. -/
structure RepliesCollection where
  id : String
  first : RepliesPage
  deriving DecidableEq, Repr

/-- Serialized data returned by a federation read endpoint. -/
inductive FediData
  | person (p : ASPerson)
  | note (n : ASNote)
  | collectionItems (items : List String)
  | repliesCollection (c : RepliesCollection)
  | repliesPage (pg : RepliesPage)
  deriving DecidableEq, Repr

/-- `gtserror` taxonomy kind carried by a `WithCode` error (the
underlying message is elided; claims only depend on the kind). -/
inductive ErrCode
  | notFound
  | notAuthorized
  | badRequest
  | internalError
  deriving DecidableEq, Repr

/-- The environment of external collaborators: database, signature
verification, handshake tracker, type converter, federating actor.
Each field is the pure observable behaviour of one collaborator call. -/
structure Env where
  /-- `db.GetAccountByID`. -/
  getAccountByID : String → Except Err Account
  /-- `db.GetLocalAccountByUsername`. -/
  getLocalAccountByUsername : String → Except Err Account
  /-- `db.GetAccountByURI`. -/
  getAccountByURI : String → Except Err Account
  /-- `db.GetWhere` on `followers_uri`. -/
  getAccountByFollowersURI : String → Except Err Account
  /-- `db.GetAccountFollowedBy` (second argument: localOnly). -/
  getAccountFollowedBy : String → Bool → Except Err (List Follow)
  /-- `db.IsBlocked` (third argument: eitherDirection). -/
  isBlocked : String → String → Bool → Except Err Bool
  /-- `db.GetWhere` on (status id, account id) producing a status. -/
  getStatusWhere : String → String → Except Err Status
  /-- The set of immediate children of a status known to the database
  (consumed by the spec-modelled `db.GetStatusChildren`). -/
  statusChildren : Status → List Status
  /-- `federator.AuthenticateFederatedRequest`: requesting actor URI
  and the authenticated flag, or an error. -/
  authenticateFederatedRequest : String → Except Err (String × Bool)
  /-- `federator.Handshaking`. -/
  handshaking : String → String → Bool
  /-- `federator.GetRemoteAccount` (third argument: refresh). -/
  getRemoteAccount : String → String → Bool → Except Err Account
  /-- `federator.FederatingDB().Following` (not part of the sources;
  only its success/failure and value are observable here). -/
  federatingFollowing : URL → Except Err (List String)
  /-- `filter.StatusVisible`. -/
  statusVisible : Status → Account → Except Err Bool
  /-- `util.IsPublicKeyPath`. -/
  isPublicKeyPath : URL → Bool
  /-- `util.IsUserPath`. -/
  isUserPath : URL → Bool
  /-- `util.IsFollowersPath`. -/
  isFollowersPath : URL → Bool
  /-- `tc.StatusToAS`. -/
  statusToAS : Status → Except Err ASNote
  /-- `tc.FollowRequestToFollow`. -/
  followRequestToFollow : FollowRequest → Follow
  /-- `tc.FollowToAS`. -/
  followToAS : Follow → Account → Account → Except Err ASFollow
  /-- `tc.FaveToAS`. -/
  faveToAS : StatusFave → Except Err ASLike
  /-- `tc.BoostToAS`. -/
  boostToAS : Status → Account → Account → Except Err ASAnnounce
  /-- `tc.BlockToAS`. -/
  blockToAS : Block → Except Err ASBlock
  /-- `tc.AccountToAS`. -/
  accountToAS : Account → Except Err ASPerson
  /-- `tc.AccountToASMinimal`. -/
  accountToASMinimal : Account → Except Err ASPerson
  /-- `tc.WrapPersonInUpdate`. -/
  wrapPersonInUpdate : ASPerson → Account → Except Err ASUpdate
  /-- `p.timelineStatus`. -/
  timelineStatusCall : Status → Except Err Unit
  /-- `p.notifyStatus`. -/
  notifyStatusCall : Status → Except Err Unit
  /-- `p.notifyFollowRequest`. -/
  notifyFollowRequestCall : FollowRequest → Except Err Unit
  /-- `p.notifyFave`. -/
  notifyFaveCall : StatusFave → Except Err Unit
  /-- `p.notifyAnnounce`. -/
  notifyAnnounceCall : Status → Except Err Unit
  /-- `p.notifyFollow`. -/
  notifyFollowCall : Follow → Account → Except Err Unit
  /-- `timelineManager.WipeStatusesFromAccountID`. -/
  wipeStatusesCall : String → String → Except Err Unit
  /-- `mediaProcessor.Delete`. -/
  mediaDeleteCall : String → Except Err Unit
  /-- `db.DeleteByID` on a mention. -/
  deleteMentionCall : String → Except Err Unit
  /-- `db.DeleteWhere` on notifications with the given status id. -/
  deleteNotificationsCall : String → Except Err Unit
  /-- `p.deleteStatusFromTimelines`. -/
  deleteStatusFromTimelinesCall : Status → Except Err Unit
  /-- `accountProcessor.Delete`. -/
  accountProcessorDeleteCall : Account → String → Except Err Unit
  /-- `federator.FederatingActor().Send`: whether the delivery call
  itself errors. -/
  sendCall : String → Activity → Except Err Unit

/-! ## Effect-traced computation helpers -/

/-- A dispatcher computation result: outcome plus the trace of
collaborator invocations it performed. -/
abbrev Traced := Except Err Unit × List Effect

/-- One collaborator invocation: the effect is recorded (the call was
made) and the collaborator's outcome becomes the result. -/
def step (e : Effect) (r : Except Err Unit) : Traced := (r, [e])

/-- Sequencing with early exit: Go's `if err := …; err != nil { return err }`.
The second computation's effects happen only when the first succeeds. -/
def seqP (a b : Traced) : Traced :=
  match a with
  | (.error e, tr) => (.error e, tr)
  | (.ok _, tr) => (b.1, tr ++ b.2)

/-! ## Envelope builders (`fromclientapi.go`, `federate*` functions) -/

/-- The `if status.Account == nil { fetch }` prelude shared by
`federateStatus` / `federateStatusDelete`: yields the status with its
account attached, and the account itself. -/
def resolveStatusAccount (env : Env) (status : Status) :
    Except Err (Status × Account) :=
  match status.Account with
  | some a => .ok (status, a)
  | none =>
    match env.getAccountByID status.AccountID with
    | .error e => .error e
    | .ok a => .ok ({ status with Account := some a }, a)

/-- `federateStatus`. -/
def federateStatus (env : Env) (status : Status) : Traced :=
  match resolveStatusAccount env status with
  | .error e => (.error e, [])
  | .ok (status, account) =>
    -- do nothing if this isn't our status
    if account.Domain ≠ "" then (.ok (), [])
    else
      match env.statusToAS status with
      | .error e => (.error e, [])
      | .ok asStatus =>
        step (.send account.OutboxURI (.note asStatus))
          (env.sendCall account.OutboxURI (.note asStatus))

/-- `federateStatusDelete`: builds a Delete whose actor is the status
author, whose object is the status's AS representation, and whose
`to`/`cc` are copied from that representation. -/
def federateStatusDelete (env : Env) (status : Status) : Traced :=
  match resolveStatusAccount env status with
  | .error e => (.error e, [])
  | .ok (status, account) =>
    -- do nothing if this isn't our status
    if account.Domain ≠ "" then (.ok (), [])
    else
      match env.statusToAS status with
      | .error e => (.error e, [])
      | .ok asStatus =>
        let deleteAct : ASDelete :=
          { actor := [account.URI], object := asStatus,
            toRecipients := asStatus.toRecipients, cc := asStatus.cc }
        step (.send account.OutboxURI (.delete deleteAct))
          (env.sendCall account.OutboxURI (.delete deleteAct))

/-- `federateFollow`. -/
def federateFollow (env : Env) (followRequest : FollowRequest)
    (originAccount targetAccount : Account) : Traced :=
  -- if both accounts are local there's nothing to do here
  if originAccount.Domain = "" ∧ targetAccount.Domain = "" then (.ok (), [])
  else
    let follow := env.followRequestToFollow followRequest
    match env.followToAS follow originAccount targetAccount with
    | .error e => (.error e, [])
    | .ok asFollow =>
      step (.send originAccount.OutboxURI (.follow asFollow))
        (env.sendCall originAccount.OutboxURI (.follow asFollow))

/-- `federateUnfollow`: recreates the Follow, wraps it in an Undo whose
actor property is copied from the recreated Follow's actor property and
whose `to` is the target account's URI. -/
def federateUnfollow (env : Env) (follow : Follow)
    (originAccount targetAccount : Account) : Traced :=
  -- if both accounts are local there's nothing to do here
  if originAccount.Domain = "" ∧ targetAccount.Domain = "" then (.ok (), [])
  else
    match env.followToAS follow originAccount targetAccount with
    | .error e => (.error e, [])
    | .ok asFollow =>
      let undo : ASUndo :=
        { actor := asFollow.actor, object := .follow asFollow,
          toRecipients := [targetAccount.URI], cc := [] }
      step (.send originAccount.OutboxURI (.undo undo))
        (env.sendCall originAccount.OutboxURI (.undo undo))

/-- `federateUnfave`: wraps the recreated Like in an Undo, actor copied
from the Like, `to` = the target account's URI. -/
def federateUnfave (env : Env) (fave : StatusFave)
    (originAccount targetAccount : Account) : Traced :=
  -- if both accounts are local there's nothing to do here
  if originAccount.Domain = "" ∧ targetAccount.Domain = "" then (.ok (), [])
  else
    match env.faveToAS fave with
    | .error e => (.error e, [])
    | .ok asFave =>
      let undo : ASUndo :=
        { actor := asFave.actor, object := .like asFave,
          toRecipients := [targetAccount.URI], cc := [] }
      step (.send originAccount.OutboxURI (.undo undo))
        (env.sendCall originAccount.OutboxURI (.undo undo))

/-- `federateUnannounce`: wraps the recreated Announce in an Undo, actor
and `to`/`cc` copied from the Announce.  Note: the guard tests only the
origin account's domain, not both accounts. -/
def federateUnannounce (env : Env) (boost : Status)
    (originAccount targetAccount : Account) : Traced :=
  if originAccount.Domain ≠ "" then
    -- nothing to do here
    (.ok (), [])
  else
    match env.boostToAS boost originAccount targetAccount with
    | .error e => (.error e, [])
    | .ok asAnnounce =>
      let undo : ASUndo :=
        { actor := asAnnounce.actor, object := .announce asAnnounce,
          toRecipients := asAnnounce.toRecipients, cc := asAnnounce.cc }
      step (.send originAccount.OutboxURI (.undo undo))
        (env.sendCall originAccount.OutboxURI (.undo undo))

/-- `federateAcceptFollowRequest`: recreates the Follow, wraps it in an
Accept whose actor is the accepting (target) account and whose `to` is
the original requester; sent via the accepter's outbox. -/
def federateAcceptFollowRequest (env : Env) (follow : Follow)
    (originAccount targetAccount : Account) : Traced :=
  -- if both accounts are local there's nothing to do here
  if originAccount.Domain = "" ∧ targetAccount.Domain = "" then (.ok (), [])
  else
    match env.followToAS follow originAccount targetAccount with
    | .error e => (.error e, [])
    | .ok asFollow =>
      let accept : ASAccept :=
        { actor := [targetAccount.URI], object := asFollow,
          toRecipients := [originAccount.URI] }
      step (.send targetAccount.OutboxURI (.accept accept))
        (env.sendCall targetAccount.OutboxURI (.accept accept))

/-- `federateFave`. -/
def federateFave (env : Env) (fave : StatusFave)
    (originAccount targetAccount : Account) : Traced :=
  -- if both accounts are local there's nothing to do here
  if originAccount.Domain = "" ∧ targetAccount.Domain = "" then (.ok (), [])
  else
    match env.faveToAS fave with
    | .error e => (.error e, [])
    | .ok asFave =>
      step (.send originAccount.OutboxURI (.like asFave))
        (env.sendCall originAccount.OutboxURI (.like asFave))

/-- `federateAnnounce`.  Note: no both-local guard is present. -/
def federateAnnounce (env : Env) (boostWrapperStatus : Status)
    (boostingAccount boostedAccount : Account) : Traced :=
  match env.boostToAS boostWrapperStatus boostingAccount boostedAccount with
  | .error e => (.error e, [])
  | .ok announce =>
    step (.send boostingAccount.OutboxURI (.announce announce))
      (env.sendCall boostingAccount.OutboxURI (.announce announce))

/-- `federateAccountUpdate`.  Note: no both-local guard is present. -/
def federateAccountUpdate (env : Env) (updatedAccount originAccount : Account) :
    Traced :=
  match env.accountToAS updatedAccount with
  | .error e => (.error e, [])
  | .ok person =>
    match env.wrapPersonInUpdate person originAccount with
    | .error e => (.error e, [])
    | .ok update =>
      step (.send originAccount.OutboxURI (.update update))
        (env.sendCall originAccount.OutboxURI (.update update))

/-- The `if block.Account == nil { fetch }` / `if block.TargetAccount == nil`
prelude shared by `federateBlock` / `federateUnblock`. -/
def resolveBlockAccounts (env : Env) (block : Block) :
    Except Err (Block × Account × Account) :=
  match (match block.Account with
         | some a => Except.ok a
         | none => env.getAccountByID block.AccountID) with
  | .error e => .error e
  | .ok acc =>
    match (match block.TargetAccount with
           | some t => Except.ok t
           | none => env.getAccountByID block.TargetAccountID) with
    | .error e => .error e
    | .ok tacc =>
      .ok ({ block with Account := some acc, TargetAccount := some tacc },
           acc, tacc)

/-- `federateBlock`. -/
def federateBlock (env : Env) (block : Block) : Traced :=
  match resolveBlockAccounts env block with
  | .error e => (.error e, [])
  | .ok (block, acc, tacc) =>
    -- if both accounts are local there's nothing to do here
    if acc.Domain = "" ∧ tacc.Domain = "" then (.ok (), [])
    else
      match env.blockToAS block with
      | .error e => (.error e, [])
      | .ok asBlock =>
        step (.send acc.OutboxURI (.block asBlock))
          (env.sendCall acc.OutboxURI (.block asBlock))

/-- `federateUnblock`: wraps the recreated Block in an Undo, actor
copied from the Block, `to` = the blocked account's URI. -/
def federateUnblock (env : Env) (block : Block) : Traced :=
  match resolveBlockAccounts env block with
  | .error e => (.error e, [])
  | .ok (block, acc, tacc) =>
    -- if both accounts are local there's nothing to do here
    if acc.Domain = "" ∧ tacc.Domain = "" then (.ok (), [])
    else
      match env.blockToAS block with
      | .error e => (.error e, [])
      | .ok asBlock =>
        let undo : ASUndo :=
          { actor := asBlock.actor, object := .block asBlock,
            toRecipients := [tacc.URI], cc := [] }
        step (.send acc.OutboxURI (.undo undo))
          (env.sendCall acc.OutboxURI (.undo undo))

/-! ## The outbound dispatcher (`ProcessFromClientAPI`) -/

/-- The attachment-deletion loop of the Delete(Note) branch. -/
def deleteAttachments (env : Env) : List String → Traced
  | [] => (.ok (), [])
  | a :: rest =>
    seqP (step (.deleteMedia a) (env.mediaDeleteCall a))
      (deleteAttachments env rest)

/-- The mention-deletion loop of the Delete(Note) branch. -/
def deleteMentions (env : Env) : List String → Traced
  | [] => (.ok (), [])
  | m :: rest =>
    seqP (step (.deleteMention m) (env.deleteMentionCall m))
      (deleteMentions env rest)

/-- The `if statusToDelete.Account == nil { statusToDelete.Account =
clientMsg.OriginAccount }` defaulting at the top of the Delete(Note)
branch. -/
def statusToDeleteOf (s : Status) (originAccount : Account) : Status :=
  match s.Account with
  | none => { s with Account := some originAccount }
  | some _ => s

/-- `ProcessFromClientAPI` — the outbound dispatcher.  The nested Go
`switch` statements become if-chains on the activity and object type
strings; an unmatched combination falls through to `return nil`. -/
def ProcessFromClientAPI (env : Env) (clientMsg : FromClientAPI) : Traced :=
  if clientMsg.APActivityType = ActivityCreate then
    if clientMsg.APObjectType = ObjectNote then
      -- CREATE NOTE
      match clientMsg.GTSModel with
      | .status status =>
        seqP (step (.timelineStatus status.ID) (env.timelineStatusCall status)) <|
        seqP (step (.notifyStatus status.ID) (env.notifyStatusCall status)) <|
        if status.Federated then federateStatus env status else (.ok (), [])
      | _ => (.error (.other "note was not parseable as *gtsmodel.Status"), [])
    else if clientMsg.APObjectType = ActivityFollow then
      -- CREATE FOLLOW REQUEST
      match clientMsg.GTSModel with
      | .followRequest followRequest =>
        seqP (step (.notifyFollowRequest followRequest.ID)
               (env.notifyFollowRequestCall followRequest)) <|
        federateFollow env followRequest clientMsg.OriginAccount
          clientMsg.TargetAccount
      | _ => (.error (.other "followrequest was not parseable as *gtsmodel.FollowRequest"), [])
    else if clientMsg.APObjectType = ActivityLike then
      -- CREATE LIKE/FAVE
      match clientMsg.GTSModel with
      | .fave fave =>
        seqP (step (.notifyFave fave.ID) (env.notifyFaveCall fave)) <|
        federateFave env fave clientMsg.OriginAccount clientMsg.TargetAccount
      | _ => (.error (.other "fave was not parseable as *gtsmodel.StatusFave"), [])
    else if clientMsg.APObjectType = ActivityAnnounce then
      -- CREATE BOOST/ANNOUNCE
      match clientMsg.GTSModel with
      | .status boostWrapperStatus =>
        seqP (step (.timelineStatus boostWrapperStatus.ID)
               (env.timelineStatusCall boostWrapperStatus)) <|
        seqP (step (.notifyAnnounce boostWrapperStatus.ID)
               (env.notifyAnnounceCall boostWrapperStatus)) <|
        federateAnnounce env boostWrapperStatus clientMsg.OriginAccount
          clientMsg.TargetAccount
      | _ => (.error (.other "boost was not parseable as *gtsmodel.Status"), [])
    else if clientMsg.APObjectType = ActivityBlock then
      -- CREATE BLOCK
      match clientMsg.GTSModel with
      | .block block =>
        -- remove any of the blocking account's statuses from the blocked
        -- account's timeline, and vice versa
        seqP (step (.wipeStatuses block.AccountID block.TargetAccountID)
               (env.wipeStatusesCall block.AccountID block.TargetAccountID)) <|
        seqP (step (.wipeStatuses block.TargetAccountID block.AccountID)
               (env.wipeStatusesCall block.TargetAccountID block.AccountID)) <|
        federateBlock env block
      | _ => (.error (.other "block was not parseable as *gtsmodel.Block"), [])
    else (.ok (), [])
  else if clientMsg.APActivityType = ActivityUpdate then
    if clientMsg.APObjectType = ObjectProfile ∨ clientMsg.APObjectType = ActorPerson then
      -- UPDATE ACCOUNT/PROFILE
      match clientMsg.GTSModel with
      | .account account =>
        federateAccountUpdate env account clientMsg.OriginAccount
      | _ => (.error (.other "account was not parseable as *gtsmodel.Account"), [])
    else (.ok (), [])
  else if clientMsg.APActivityType = ActivityAccept then
    if clientMsg.APObjectType = ActivityFollow then
      -- ACCEPT FOLLOW
      match clientMsg.GTSModel with
      | .follow follow =>
        seqP (step (.notifyFollow follow.ID)
               (env.notifyFollowCall follow clientMsg.TargetAccount)) <|
        federateAcceptFollowRequest env follow clientMsg.OriginAccount
          clientMsg.TargetAccount
      | _ => (.error (.other "accept was not parseable as *gtsmodel.Follow"), [])
    else (.ok (), [])
  else if clientMsg.APActivityType = ActivityUndo then
    if clientMsg.APObjectType = ActivityFollow then
      -- UNDO FOLLOW
      match clientMsg.GTSModel with
      | .follow follow =>
        federateUnfollow env follow clientMsg.OriginAccount clientMsg.TargetAccount
      | _ => (.error (.other "undo was not parseable as *gtsmodel.Follow"), [])
    else if clientMsg.APObjectType = ActivityBlock then
      -- UNDO BLOCK
      match clientMsg.GTSModel with
      | .block block => federateUnblock env block
      | _ => (.error (.other "undo was not parseable as *gtsmodel.Block"), [])
    else if clientMsg.APObjectType = ActivityLike then
      -- UNDO LIKE/FAVE
      match clientMsg.GTSModel with
      | .fave fave =>
        federateUnfave env fave clientMsg.OriginAccount clientMsg.TargetAccount
      | _ => (.error (.other "undo was not parseable as *gtsmodel.StatusFave"), [])
    else if clientMsg.APObjectType = ActivityAnnounce then
      -- UNDO ANNOUNCE/BOOST
      match clientMsg.GTSModel with
      | .status boost =>
        seqP (step (.deleteStatusFromTimelines boost.ID)
               (env.deleteStatusFromTimelinesCall boost)) <|
        federateUnannounce env boost clientMsg.OriginAccount clientMsg.TargetAccount
      | _ => (.error (.other "undo was not parseable as *gtsmodel.Status"), [])
    else (.ok (), [])
  else if clientMsg.APActivityType = ActivityDelete then
    if clientMsg.APObjectType = ObjectNote then
      -- DELETE STATUS/NOTE
      match clientMsg.GTSModel with
      | .status s =>
        let statusToDelete := statusToDeleteOf s clientMsg.OriginAccount
        seqP (deleteAttachments env statusToDelete.AttachmentIDs) <|
        seqP (deleteMentions env statusToDelete.MentionIDs) <|
        seqP (step (.deleteNotifications statusToDelete.ID)
               (env.deleteNotificationsCall statusToDelete.ID)) <|
        seqP (step (.deleteStatusFromTimelines statusToDelete.ID)
               (env.deleteStatusFromTimelinesCall statusToDelete)) <|
        federateStatusDelete env statusToDelete
      | _ => (.error (.other "note was not parseable as *gtsmodel.Status"), [])
    else if clientMsg.APObjectType = ObjectProfile ∨ clientMsg.APObjectType = ActorPerson then
      -- DELETE ACCOUNT/PROFILE: the origin of the delete could be either
      -- a domain block, or an action by another (or this) account
      let origin :=
        match clientMsg.GTSModel with
        | .domainBlock domainBlock => domainBlock.ID
        | _ => clientMsg.OriginAccount.ID
      step (.accountDelete clientMsg.TargetAccount.ID origin)
        (env.accountProcessorDeleteCall clientMsg.TargetAccount origin)
    else (.ok (), [])
  else (.ok (), [])

/-! ## Followers collection builder (`federatingdb.Followers`) -/

/-- The per-edge loop of `federatingdb.Followers`: for each follow, if
its account is not attached, fetch it by ID; a `db.ErrNoEntries` result
is logged and the edge skipped, any other error aborts the build; each
surviving edge contributes its account's URI to the items. -/
def collectFollowerItems (env : Env) : List Follow → Except Err (List String)
  | [] => .ok []
  | follow :: rest =>
    match follow.Account with
    | some a =>
      (match collectFollowerItems env rest with
       | .error e => .error e
       | .ok items => .ok (a.URI :: items))
    | none =>
      match env.getAccountByID follow.AccountID with
      | .error .noEntries =>
        -- no entry for this account id so it's probably been deleted
        -- and we haven't caught up yet: log and continue
        collectFollowerItems env rest
      | .error e => .error e
      | .ok a =>
        match collectFollowerItems env rest with
        | .error e => .error e
        | .ok items => .ok (a.URI :: items)

/-- `federatingdb.Followers`. -/
def Followers (env : Env) (actorIRI : URL) : Except Err (List String) :=
  match (if env.isUserPath actorIRI then env.getAccountByURI actorIRI.raw
         else if env.isFollowersPath actorIRI then
           env.getAccountByFollowersURI actorIRI.raw
         else
           .error (.other "could not parse actor IRI as users or followers path")) with
  | .error e => .error e
  | .ok acct =>
    match env.getAccountFollowedBy acct.ID false with
    | .error e => .error e
    | .ok acctFollowers => collectFollowerItems env acctFollowers

/-! ## Federation read endpoints (`GetFedi*`) -/

/-- The tail of `GetFediUser`'s user-path branch: convert the requested
account to its full AS representation and serialize it. -/
def serveFullProfile (env : Env) (requestedAccount : Account) :
    Except ErrCode FediData :=
  match env.accountToAS requestedAccount with
  | .error _ => .error .internalError
  | .ok requestedPerson => .ok (.person requestedPerson)

/-- `GetFediUser`. -/
def GetFediUser (env : Env) (requestedUsername : String) (requestURL : URL) :
    Except ErrCode FediData :=
  -- get the account the request is referring to
  match env.getLocalAccountByUsername requestedUsername with
  | .error _ => .error .notFound
  | .ok requestedAccount =>
    if env.isPublicKeyPath requestURL then
      -- public key path: no authentication, serve the minimal profile
      match env.accountToASMinimal requestedAccount with
      | .error _ => .error .internalError
      | .ok requestedPerson => .ok (.person requestedPerson)
    else if env.isUserPath requestURL then
      -- user path: fully authenticate before serving a complete profile
      match env.authenticateFederatedRequest requestedUsername with
      | .error _ => .error .notAuthorized
      | .ok (requestingAccountURI, authenticated) =>
        if ¬ authenticated then .error .notAuthorized
        else if ¬ env.handshaking requestedUsername requestingAccountURI then
          -- not already handshaking: dereference the remote account now
          match env.getRemoteAccount requestedUsername requestingAccountURI false with
          | .error _ => .error .notAuthorized
          | .ok requestingAccount =>
            match env.isBlocked requestedAccount.ID requestingAccount.ID true with
            | .error _ => .error .internalError
            | .ok true => .error .notAuthorized
            | .ok false => serveFullProfile env requestedAccount
        else
          -- handshake in flight: skip dereferencing (and the block check)
          serveFullProfile env requestedAccount
    else .error .badRequest

/-- The shared authentication/authorization prelude of
`GetFediFollowers` / `GetFediFollowing` / `GetFediStatus` /
`GetFediStatusReplies`: look up the local account, authenticate, resolve
the remote account, check blocks in either direction. -/
def authorizeFediRequest (env : Env) (requestedUsername : String) :
    Except ErrCode (Account × Account) :=
  match env.getLocalAccountByUsername requestedUsername with
  | .error _ => .error .notFound
  | .ok requestedAccount =>
    match env.authenticateFederatedRequest requestedUsername with
    | .error _ => .error .notAuthorized
    | .ok (requestingAccountURI, authenticated) =>
      if ¬ authenticated then .error .notAuthorized
      else
        match env.getRemoteAccount requestedUsername requestingAccountURI false with
        | .error _ => .error .notAuthorized
        | .ok requestingAccount =>
          match env.isBlocked requestedAccount.ID requestingAccount.ID true with
          | .error _ => .error .internalError
          | .ok true => .error .notAuthorized
          | .ok false => .ok (requestedAccount, requestingAccount)

/-- `GetFediFollowers`. -/
def GetFediFollowers (env : Env) (requestedUsername : String) (_requestURL : URL) :
    Except ErrCode FediData :=
  match authorizeFediRequest env requestedUsername with
  | .error c => .error c
  | .ok (requestedAccount, _) =>
    match Followers env (urlParse requestedAccount.URI) with
    | .error _ => .error .internalError
    | .ok requestedFollowers => .ok (.collectionItems requestedFollowers)

/-- `GetFediFollowing`. -/
def GetFediFollowing (env : Env) (requestedUsername : String) (_requestURL : URL) :
    Except ErrCode FediData :=
  match authorizeFediRequest env requestedUsername with
  | .error c => .error c
  | .ok (requestedAccount, _) =>
    match env.federatingFollowing (urlParse requestedAccount.URI) with
    | .error _ => .error .internalError
    | .ok requestedFollowing => .ok (.collectionItems requestedFollowing)

/-- `GetFediStatus`. -/
def GetFediStatus (env : Env) (requestedUsername requestedStatusID : String)
    (_requestURL : URL) : Except ErrCode FediData :=
  match authorizeFediRequest env requestedUsername with
  | .error c => .error c
  | .ok (requestedAccount, requestingAccount) =>
    -- get the status out of the database here
    match env.getStatusWhere requestedStatusID requestedAccount.ID with
    | .error _ => .error .notFound
    | .ok s =>
      match env.statusVisible s requestingAccount with
      | .error _ => .error .internalError
      | .ok false => .error .notFound
      | .ok true =>
        match env.statusToAS s with
        | .error _ => .error .internalError
        | .ok asStatus => .ok (.note asStatus)

/-- Modelled from the spec: `db.GetStatusChildren` (the storage layer is
not part of the sources) returns the immediate child statuses with ID
greater than `minID`. -/
def getStatusChildren (env : Env) (s : Status) (minID : String) : List Status :=
  (env.statusChildren s).filter (fun r => minID < r.ID)

/-- Modelled from the spec: `tc.StatusToASRepliesCollection` (the type
converter is not part of the sources) builds the outer replies
collection with no items of its own, pointing to a "first" page link;
the first page also carries no items. -/
def statusToASRepliesCollection (s : Status) (onlyOtherAccounts : Bool) :
    RepliesCollection :=
  { id := s.URI ++ "/replies",
    first :=
      { id := s.URI ++ "/replies?page=true",
        onlyOtherAccounts := onlyOtherAccounts, minID := "", items := [] } }

/-- Modelled from the spec: `tc.StatusURIsToASRepliesPage` (the type
converter is not part of the sources) serializes the given reply URIs in
a page keyed by `minID` for forward pagination. -/
def statusURIsToASRepliesPage (s : Status) (onlyOtherAccounts : Bool)
    (minID : String) (replyURIs : List (String × String)) : RepliesPage :=
  { id := s.URI ++ "/replies?page=true",
    onlyOtherAccounts := onlyOtherAccounts, minID := minID,
    items := replyURIs.map Prod.snd }

/-- Whether a `filter.StatusVisible` call reported the status visible;
an errored call counts as not visible (the loop skips it). -/
def visOK (res : Except Err Bool) : Bool :=
  match res with
  | .ok true => true
  | _ => false

/-- The reply-filtering loop of `GetFediStatusReplies` scenario 3:
keep only Public/Unlocked replies, respect `onlyOtherAccounts`, and keep
only replies visible both to the status owner and to the requester;
surviving replies contribute `(ID, URI)`. -/
def filterReplies (env : Env) (requestedAccount requestingAccount : Account)
    (onlyOtherAccounts : Bool) : List Status → List (String × String)
  | [] => []
  | r :: rest =>
    let rest' := filterReplies env requestedAccount requestingAccount
      onlyOtherAccounts rest
    -- only show public or unlocked statuses as replies
    if r.Visibility ≠ .public ∧ r.Visibility ≠ .unlocked then rest'
    -- respect onlyOtherAccounts parameter
    else if onlyOtherAccounts ∧ r.AccountID = requestedAccount.ID then rest'
    -- only show replies that the status owner can see
    else if ¬ visOK (env.statusVisible r requestedAccount) then rest'
    -- only show replies that the requester can see
    else if ¬ visOK (env.statusVisible r requestingAccount) then rest'
    else (r.ID, r.URI) :: rest'

/-- `GetFediStatusReplies`. -/
def GetFediStatusReplies (env : Env) (requestedUsername requestedStatusID : String)
    (page onlyOtherAccounts : Bool) (minID : String) (requestURL : URL) :
    Except ErrCode FediData :=
  match authorizeFediRequest env requestedUsername with
  | .error c => .error c
  | .ok (requestedAccount, requestingAccount) =>
    -- get the status out of the database here
    match env.getStatusWhere requestedStatusID requestedAccount.ID with
    | .error _ => .error .notFound
    | .ok s =>
      match env.statusVisible s requestingAccount with
      | .error _ => .error .internalError
      | .ok false => .error .notFound
      | .ok true =>
        if ¬ page then
          -- scenario 1: whole collection, no items, link to first page
          .ok (.repliesCollection (statusToASRepliesCollection s onlyOtherAccounts))
        else if page ∧ requestURL.queryOnlyOtherAccounts = "" then
          -- scenario 2: just the first page of the collection, no items
          .ok (.repliesPage (statusToASRepliesCollection s onlyOtherAccounts).first)
        else
          -- scenario 3: actual items
          let replies := getStatusChildren env s minID
          let replyURIs := filterReplies env requestedAccount requestingAccount
            onlyOtherAccounts replies
          .ok (.repliesPage (statusURIsToASRepliesPage s onlyOtherAccounts minID replyURIs))

/-! ## Concrete fixtures

A local account, a remote account, and an environment in which every
collaborator call succeeds, used to evaluate the definitions at concrete
inputs for witnesses and counterexamples. -/

/-- A local account (empty domain). -/
def zork : Account :=
  { ID := "01F8MH1H7YV1Z7D2C8K2730QBF", Username := "the_mighty_zork",
    URI := "http://localhost:8080/users/the_mighty_zork",
    URL := "http://localhost:8080/@the_mighty_zork", Domain := "",
    OutboxURI := "http://localhost:8080/users/the_mighty_zork/outbox" }

/-- A second local account. -/
def admin : Account :=
  { ID := "01F8MH17FWEB39HZJ76B6VXSKF", Username := "admin",
    URI := "http://localhost:8080/users/admin",
    URL := "http://localhost:8080/@admin", Domain := "",
    OutboxURI := "http://localhost:8080/users/admin/outbox" }

/-- A remote account. -/
def foss_satan : Account :=
  { ID := "01F8MH5ZK5VRH73AKHQM6Y9VNX", Username := "foss_satan",
    URI := "http://fossbros-anonymous.io/users/foss_satan",
    URL := "http://fossbros-anonymous.io/@foss_satan",
    Domain := "fossbros-anonymous.io",
    OutboxURI := "http://fossbros-anonymous.io/users/foss_satan/outbox" }

/-- A status owned by the local account `zork`. -/
def zorkStatus : Status :=
  { ID := "01F8MHAMCHF6Y650WCRSCP4WMY",
    URI := "http://localhost:8080/users/the_mighty_zork/statuses/01F8MHAMCHF6Y650WCRSCP4WMY",
    AccountID := zork.ID, Account := some zork, Visibility := .public,
    Federated := true, AttachmentIDs := ["01ATT1", "01ATT2"],
    MentionIDs := ["01MENT1"] }

/-- An environment in which every collaborator call succeeds, with
simple deterministic type-converter outputs. -/
def envOK : Env :=
  { getAccountByID := fun _ => .ok zork
    getLocalAccountByUsername := fun _ => .ok zork
    getAccountByURI := fun _ => .ok zork
    getAccountByFollowersURI := fun _ => .ok zork
    getAccountFollowedBy := fun _ _ => .ok []
    isBlocked := fun _ _ _ => .ok false
    getStatusWhere := fun _ _ => .ok zorkStatus
    statusChildren := fun _ => []
    authenticateFederatedRequest := fun _ => .ok (foss_satan.URI, true)
    handshaking := fun _ _ => false
    getRemoteAccount := fun _ _ _ => .ok foss_satan
    federatingFollowing := fun _ => .ok []
    statusVisible := fun _ _ => .ok true
    isPublicKeyPath := fun _ => false
    isUserPath := fun _ => true
    isFollowersPath := fun _ => false
    statusToAS := fun s =>
      .ok { id := s.URI, attributedTo := s.AccountID,
            toRecipients := ["https://www.w3.org/ns/activitystreams#Public"],
            cc := ["http://localhost:8080/users/the_mighty_zork/followers"] }
    followRequestToFollow := fun fr =>
      { ID := fr.ID, AccountID := fr.AccountID,
        TargetAccountID := fr.TargetAccountID, Account := none, URI := fr.URI }
    followToAS := fun _ o t =>
      .ok { actor := [o.URI], object := [t.URI], toRecipients := [t.URI] }
    faveToAS := fun f =>
      .ok { actor := [f.AccountID], object := [f.StatusID],
            toRecipients := [f.TargetAccountID] }
    boostToAS := fun s o _ =>
      .ok { actor := [o.URI], object := [s.URI],
            toRecipients := ["https://www.w3.org/ns/activitystreams#Public"],
            cc := [o.URI ++ "/followers"] }
    blockToAS := fun b =>
      .ok { actor := [b.AccountID], object := [b.TargetAccountID],
            toRecipients := [] }
    accountToAS := fun a => .ok { iri := a.URI, rep := "full" }
    accountToASMinimal := fun a => .ok { iri := a.URI, rep := "minimal" }
    wrapPersonInUpdate := fun p o =>
      .ok { actor := [o.URI], object := p, toRecipients := [], cc := [] }
    timelineStatusCall := fun _ => .ok ()
    notifyStatusCall := fun _ => .ok ()
    notifyFollowRequestCall := fun _ => .ok ()
    notifyFaveCall := fun _ => .ok ()
    notifyAnnounceCall := fun _ => .ok ()
    notifyFollowCall := fun _ _ => .ok ()
    wipeStatusesCall := fun _ _ => .ok ()
    mediaDeleteCall := fun _ => .ok ()
    deleteMentionCall := fun _ => .ok ()
    deleteNotificationsCall := fun _ => .ok ()
    deleteStatusFromTimelinesCall := fun _ => .ok ()
    accountProcessorDeleteCall := fun _ _ => .ok ()
    sendCall := fun _ _ => .ok () }

/-- A user-path request URL for the profile endpoint. -/
def userURL : URL :=
  { raw := "http://localhost:8080/users/the_mighty_zork",
    queryOnlyOtherAccounts := "" }

/-! ## Claims -/

/-- An environment in which a block exists between the two accounts and
a handshake for the (target, requester) pair is in flight. -/
def envHandshakingBlocked : Env :=
  { envOK with
    handshaking := fun _ _ => true
    isBlocked := fun _ _ _ => .ok true }

/-- C1, counterexample: an authenticated inbound user-path request that
arrives while a handshake for the same (target, requester) pair is in
flight is served the full profile even though a block exists between the
accounts — the block check is skipped inside the handshake branch, so
`GetFediUser` does not return NotAuthorized as the claim requires. -/
theorem getFediUser_handshake_block_bypass :
    envHandshakingBlocked.handshaking zork.Username foss_satan.URI = true ∧
    envHandshakingBlocked.isBlocked zork.ID foss_satan.ID true = .ok true ∧
    GetFediUser envHandshakingBlocked zork.Username userURL
      = .ok (.person { iri := zork.URI, rep := "full" }) := by
  refine ⟨rfl, rfl, ?_⟩
  rfl

/-- C1 (amended): for an authenticated inbound user-path request for a
local actor's full profile, when NO handshake for the (target,
requester) pair is in flight, a block in either direction between the
accounts makes `GetFediUser` return NotAuthorized (and hence no profile
data); while a handshake is in flight the block check is skipped. -/
theorem getFediUser_blocked_notAuthorized (env : Env) (u : String) (url : URL)
    (X R : Account) (uri : String)
    (hacct : env.getLocalAccountByUsername u = .ok X)
    (hpk : env.isPublicKeyPath url = false)
    (hup : env.isUserPath url = true)
    (hauth : env.authenticateFederatedRequest u = .ok (uri, true))
    (hhs : env.handshaking u uri = false)
    (hremote : env.getRemoteAccount u uri false = .ok R)
    (hblocked : env.isBlocked X.ID R.ID true = .ok true) :
    GetFediUser env u url = .error .notAuthorized := by
  simp [GetFediUser, hacct, hpk, hup, hauth, hhs, hremote, hblocked]

/-- An environment in which a block exists between the two accounts (no
handshake in flight). -/
def envBlocked : Env := { envOK with isBlocked := fun _ _ _ => .ok true }

/-- C1, witness for the amended theorem. -/
theorem getFediUser_blocked_notAuthorized_witness :
    GetFediUser envBlocked zork.Username userURL = .error .notAuthorized :=
  getFediUser_blocked_notAuthorized envBlocked zork.Username userURL
    zork foss_satan foss_satan.URI rfl rfl rfl rfl rfl rfl rfl

/-- C2, counterexample: with a block in either direction between the
accounts, `GetFediStatus` returns the NotAuthorized error kind (HTTP
401), not NotFound (404) as the claim states — the two outcomes are
distinguishable to the requester. -/
theorem getFediStatus_blocked_is_notAuthorized_not_notFound :
    GetFediStatus envBlocked zork.Username zorkStatus.ID userURL
      = .error .notAuthorized ∧
    (ErrCode.notAuthorized ≠ ErrCode.notFound) := by
  exact ⟨rfl, by decide⟩

/-- C2 (amended): for all account pairs with a Block record in either
direction, requesting one party's status as the other returns a
NotAuthorized error (HTTP 401), which is distinguishable from the
NotFound returned for nonexistent or invisible statuses. -/
theorem getFediStatus_blocked_notAuthorized (env : Env)
    (u sid : String) (url : URL) (X R : Account) (uri : String)
    (hacct : env.getLocalAccountByUsername u = .ok X)
    (hauth : env.authenticateFederatedRequest u = .ok (uri, true))
    (hremote : env.getRemoteAccount u uri false = .ok R)
    (hblocked : env.isBlocked X.ID R.ID true = .ok true) :
    GetFediStatus env u sid url = .error .notAuthorized := by
  simp [GetFediStatus, authorizeFediRequest, hacct, hauth, hremote, hblocked]

/-- C2, witness for the amended theorem. -/
theorem getFediStatus_blocked_notAuthorized_witness :
    GetFediStatus envBlocked zork.Username zorkStatus.ID userURL
      = .error .notAuthorized :=
  getFediStatus_blocked_notAuthorized envBlocked zork.Username zorkStatus.ID
    userURL zork foss_satan foss_satan.URI rfl rfl rfl rfl

/-- C10: every federation read endpoint looks the local account up
first; when the username has no local account the operation returns
NotFound for EVERY environment with that lookup failure — in particular
whatever the authentication collaborator would do, so the NotFound
outcome for an unknown username is identical for authenticated and
unauthenticated requesters, and an unauthenticated remote can learn
whether a local account exists. -/
theorem getFedi_unknownUsername_notFound_before_auth (env : Env)
    (u sid minID : String) (url : URL) (page onlyOther : Bool) (e : Err)
    (hlookup : env.getLocalAccountByUsername u = .error e) :
    GetFediUser env u url = .error .notFound ∧
    GetFediFollowers env u url = .error .notFound ∧
    GetFediFollowing env u url = .error .notFound ∧
    GetFediStatus env u sid url = .error .notFound ∧
    GetFediStatusReplies env u sid page onlyOther minID url = .error .notFound := by
  refine ⟨?_, ?_, ?_, ?_, ?_⟩ <;>
    simp [GetFediUser, GetFediFollowers, GetFediFollowing, GetFediStatus,
      GetFediStatusReplies, authorizeFediRequest, hlookup]

/-- An environment in which the requested username has no local account
and authentication always fails. -/
def envNoLocalAccount : Env :=
  { envOK with
    getLocalAccountByUsername := fun _ => .error .noEntries
    authenticateFederatedRequest := fun _ => .error (.other "no signature") }

/-- C10, witness: with no local account for the username (and an
authentication collaborator that always rejects), all five endpoints
return NotFound. -/
theorem getFedi_unknownUsername_notFound_witness :
    GetFediUser envNoLocalAccount "nobody" userURL = .error .notFound ∧
    GetFediFollowers envNoLocalAccount "nobody" userURL = .error .notFound ∧
    GetFediFollowing envNoLocalAccount "nobody" userURL = .error .notFound ∧
    GetFediStatus envNoLocalAccount "nobody" "01X" userURL = .error .notFound ∧
    GetFediStatusReplies envNoLocalAccount "nobody" "01X" true true "" userURL
      = .error .notFound :=
  getFedi_unknownUsername_notFound_before_auth envNoLocalAccount
    "nobody" "01X" "" userURL true true .noEntries rfl

/-- The (activity verb, object type) pairs handled by the dispatcher. -/
def dispatchTable : List (String × String) :=
  [(ActivityCreate, ObjectNote), (ActivityCreate, ActivityFollow),
   (ActivityCreate, ActivityLike), (ActivityCreate, ActivityAnnounce),
   (ActivityCreate, ActivityBlock), (ActivityUpdate, ObjectProfile),
   (ActivityUpdate, ActorPerson), (ActivityAccept, ActivityFollow),
   (ActivityUndo, ActivityFollow), (ActivityUndo, ActivityBlock),
   (ActivityUndo, ActivityLike), (ActivityUndo, ActivityAnnounce),
   (ActivityDelete, ObjectNote), (ActivityDelete, ObjectProfile),
   (ActivityDelete, ActorPerson)]

/-- C7: an action message whose (verb, object-type) pair matches no
dispatch-table entry falls through both switches: Dispatch returns nil
(no error) and performs no side effects at all — no local updates and no
outbound delivery. -/
theorem dispatch_unmatched_noop (env : Env) (msg : FromClientAPI)
    (hmem : (msg.APActivityType, msg.APObjectType) ∉ dispatchTable) :
    ProcessFromClientAPI env msg = (.ok (), []) := by
  unfold ProcessFromClientAPI
  split_ifs <;> first
    | rfl
    | (exfalso; apply hmem; simp_all [dispatchTable, ActivityCreate,
        ActivityUpdate, ActivityAccept, ActivityUndo, ActivityDelete,
        ActivityFollow, ActivityLike, ActivityAnnounce, ActivityBlock,
        ObjectNote, ObjectProfile, ActorPerson])

/-- An action message with a verb the dispatcher does not handle. -/
def msgFlag : FromClientAPI :=
  { APObjectType := ObjectNote, APActivityType := "Flag",
    GTSModel := .status zorkStatus, OriginAccount := zork,
    TargetAccount := admin }

/-- C7, witness: a Flag(Note) message is not in the dispatch table and
dispatching it returns nil with an empty effect trace. -/
theorem dispatch_unmatched_noop_witness :
    (msgFlag.APActivityType, msgFlag.APObjectType) ∉ dispatchTable ∧
    ProcessFromClientAPI envOK msgFlag = (.ok (), []) :=
  ⟨by decide, dispatch_unmatched_noop envOK msgFlag (by decide)⟩

/-- The dispatch-table entries that type-assert their payload against a
single concrete model type (every entry except Delete(Profile/Person),
which inspects the payload but accepts any type). -/
def dispatchTableStrict : List (String × String) :=
  [(ActivityCreate, ObjectNote), (ActivityCreate, ActivityFollow),
   (ActivityCreate, ActivityLike), (ActivityCreate, ActivityAnnounce),
   (ActivityCreate, ActivityBlock), (ActivityUpdate, ObjectProfile),
   (ActivityUpdate, ActorPerson), (ActivityAccept, ActivityFollow),
   (ActivityUndo, ActivityFollow), (ActivityUndo, ActivityBlock),
   (ActivityUndo, ActivityLike), (ActivityUndo, ActivityAnnounce),
   (ActivityDelete, ObjectNote)]

/-- Whether a payload is of the concrete model type the dispatch-table
entry for this (verb, object-type) pair expects. -/
def payloadMatches : String → String → GTSModel → Bool
  | "Create", "Note", .status _ => true
  | "Create", "Follow", .followRequest _ => true
  | "Create", "Like", .fave _ => true
  | "Create", "Announce", .status _ => true
  | "Create", "Block", .block _ => true
  | "Update", "Profile", .account _ => true
  | "Update", "Person", .account _ => true
  | "Accept", "Follow", .follow _ => true
  | "Undo", "Follow", .follow _ => true
  | "Undo", "Block", .block _ => true
  | "Undo", "Like", .fave _ => true
  | "Undo", "Announce", .status _ => true
  | "Delete", "Note", .status _ => true
  | _, _, _ => false

set_option maxHeartbeats 2000000 in
/-- C8 (amended): for every dispatch-table entry except
Delete(Profile/Person), a payload that is not of the concrete model type
the entry expects makes Dispatch return an error with an EMPTY effect
trace — the mismatch is detected before any local side effect or any
federation delivery. -/
theorem dispatch_mismatch_error (env : Env) (msg : FromClientAPI)
    (hmem : (msg.APActivityType, msg.APObjectType) ∈ dispatchTableStrict)
    (hpm : payloadMatches msg.APActivityType msg.APObjectType msg.GTSModel = false) :
    ∃ m, ProcessFromClientAPI env msg = (.error (.other m), []) := by
  rcases msg with ⟨O, A, M, OA, TA⟩
  simp only [dispatchTableStrict, ActivityCreate, ActivityUpdate,
    ActivityAccept, ActivityUndo, ActivityDelete, ActivityFollow,
    ActivityLike, ActivityAnnounce, ActivityBlock, ObjectNote,
    ObjectProfile, ActorPerson, List.mem_cons, List.not_mem_nil,
    or_false, Prod.mk.injEq] at hmem
  simp only at hpm
  rcases hmem with h | h | h | h | h | h | h | h | h | h | h | h | h <;>
    obtain ⟨rfl, rfl⟩ := h <;>
    cases M <;> simp [payloadMatches] at hpm <;> exact ⟨_, rfl⟩

/-- A Delete(Profile) message whose payload is a Status — not the
DomainBlock the entry's type switch inspects for. -/
def msgDeleteProfileMismatch : FromClientAPI :=
  { APObjectType := ObjectProfile, APActivityType := ActivityDelete,
    GTSModel := .status zorkStatus, OriginAccount := admin,
    TargetAccount := zork }

/-- C8, counterexample: the Delete(Profile/Person) entry is in the
dispatch table, a Status payload does not match the concrete model type
the entry inspects for (DomainBlock), yet Dispatch returns nil and
performs the account-delete side effect — no mismatch error, state
changed. -/
theorem dispatch_deleteProfile_mismatch_no_error :
    (msgDeleteProfileMismatch.APActivityType,
      msgDeleteProfileMismatch.APObjectType) ∈ dispatchTable ∧
    payloadMatches msgDeleteProfileMismatch.APActivityType
      msgDeleteProfileMismatch.APObjectType msgDeleteProfileMismatch.GTSModel
      = false ∧
    ProcessFromClientAPI envOK msgDeleteProfileMismatch
      = (.ok (), [.accountDelete zork.ID admin.ID]) :=
  ⟨by decide, rfl, rfl⟩

/-- C8, witness for the amended theorem: an Undo(Follow) message whose
payload is a Status is rejected with an error and an empty trace. -/
theorem dispatch_mismatch_error_witness :
    ∃ m, ProcessFromClientAPI envOK
      { APObjectType := ActivityFollow, APActivityType := ActivityUndo,
        GTSModel := .status zorkStatus, OriginAccount := zork,
        TargetAccount := admin }
      = (.error (.other m), []) :=
  dispatch_mismatch_error envOK
    { APObjectType := ActivityFollow, APActivityType := ActivityUndo,
      GTSModel := .status zorkStatus, OriginAccount := zork,
      TargetAccount := admin }
    (by decide) rfl

/-! ## C3: the both-local no-delivery policy -/

/-- A profile-update message whose origin and target accounts are both
local. -/
def msgUpdateLocal : FromClientAPI :=
  { APObjectType := ObjectProfile, APActivityType := ActivityUpdate,
    GTSModel := .account zork, OriginAccount := zork, TargetAccount := zork }

/-- C3, counterexample: dispatching an Update(Profile) action message
whose origin and target accounts are both local DOES invoke the
federating actor's `Send` — `federateAccountUpdate` has no both-local
guard — refuting the claim that every dispatch-table entry produces no
outbound delivery call for both-local messages. -/
theorem dispatch_bothLocal_update_sends :
    msgUpdateLocal.OriginAccount.Domain = "" ∧
    msgUpdateLocal.TargetAccount.Domain = "" ∧
    (msgUpdateLocal.APActivityType, msgUpdateLocal.APObjectType) ∈ dispatchTable ∧
    Effect.send zork.OutboxURI
        (.update { actor := [zork.URI], object := { iri := zork.URI, rep := "full" },
                   toRecipients := [], cc := [] })
      ∈ (ProcessFromClientAPI envOK msgUpdateLocal).2 := by
  refine ⟨rfl, rfl, by decide, ?_⟩
  decide

/-- No element of a trace free of send effects is a send. -/
theorem noSend_seqP {x y : Traced}
    (hx : ∀ o a, Effect.send o a ∉ x.2) (hy : ∀ o a, Effect.send o a ∉ y.2) :
    ∀ o a, Effect.send o a ∉ (seqP x y).2 := by
  intro o a
  obtain ⟨rx, tx⟩ := x
  cases rx with
  | error e => simpa [seqP] using hx o a
  | ok u =>
    simp only [seqP, List.mem_append]
    rintro (h | h)
    · exact hx o a h
    · exact hy o a h

/-- A single collaborator step whose effect is not a send leaves no
send in the trace. -/
theorem noSend_step {e : Effect} {r : Except Err Unit}
    (he : ∀ o a, e ≠ Effect.send o a) : ∀ o a, Effect.send o a ∉ (step e r).2 := by
  intro o a h
  simp only [step, List.mem_singleton] at h
  exact he o a h.symm

/-- `federateFollow` is a no-op when both accounts are local. -/
theorem federateFollow_bothLocal (env : Env) (fr : FollowRequest)
    {o t : Account} (h1 : o.Domain = "") (h2 : t.Domain = "") :
    federateFollow env fr o t = (.ok (), []) := by
  simp [federateFollow, h1, h2]

/-- `federateFave` is a no-op when both accounts are local. -/
theorem federateFave_bothLocal (env : Env) (f : StatusFave)
    {o t : Account} (h1 : o.Domain = "") (h2 : t.Domain = "") :
    federateFave env f o t = (.ok (), []) := by
  simp [federateFave, h1, h2]

/-- `federateUnfollow` is a no-op when both accounts are local. -/
theorem federateUnfollow_bothLocal (env : Env) (f : Follow)
    {o t : Account} (h1 : o.Domain = "") (h2 : t.Domain = "") :
    federateUnfollow env f o t = (.ok (), []) := by
  simp [federateUnfollow, h1, h2]

/-- `federateUnfave` is a no-op when both accounts are local. -/
theorem federateUnfave_bothLocal (env : Env) (f : StatusFave)
    {o t : Account} (h1 : o.Domain = "") (h2 : t.Domain = "") :
    federateUnfave env f o t = (.ok (), []) := by
  simp [federateUnfave, h1, h2]

/-- `federateAcceptFollowRequest` is a no-op when both accounts are local. -/
theorem federateAccept_bothLocal (env : Env) (f : Follow)
    {o t : Account} (h1 : o.Domain = "") (h2 : t.Domain = "") :
    federateAcceptFollowRequest env f o t = (.ok (), []) := by
  simp [federateAcceptFollowRequest, h1, h2]

/-- `federateBlock` is a no-op when the block's two accounts are
attached and both local. -/
theorem federateBlock_bothLocal (env : Env) {b : Block} {ba ta : Account}
    (hba : b.Account = some ba) (hta : b.TargetAccount = some ta)
    (h1 : ba.Domain = "") (h2 : ta.Domain = "") :
    federateBlock env b = (.ok (), []) := by
  simp [federateBlock, resolveBlockAccounts, hba, hta, h1, h2]

/-- `federateUnblock` is a no-op when the block's two accounts are
attached and both local. -/
theorem federateUnblock_bothLocal (env : Env) {b : Block} {ba ta : Account}
    (hba : b.Account = some ba) (hta : b.TargetAccount = some ta)
    (h1 : ba.Domain = "") (h2 : ta.Domain = "") :
    federateUnblock env b = (.ok (), []) := by
  simp [federateUnblock, resolveBlockAccounts, hba, hta, h1, h2]

/-- The dispatch-table entries that guard federation on the message's
origin and target both being local (plus Delete(Profile/Person), which
performs no delivery at all). -/
def guardedTable : List (String × String) :=
  [(ActivityCreate, ActivityFollow), (ActivityCreate, ActivityLike),
   (ActivityAccept, ActivityFollow), (ActivityUndo, ActivityFollow),
   (ActivityUndo, ActivityLike), (ActivityDelete, ObjectProfile),
   (ActivityDelete, ActorPerson)]

set_option maxHeartbeats 2000000 in
/-- C3 (amended): the both-local no-delivery policy holds exactly for
the dispatch entries that implement a guard.  (1) For Create(Follow),
Create(Like), Accept(Follow), Undo(Follow), Undo(Like) and
Delete(Profile/Person), a message whose origin and target accounts are
both local never invokes the federating actor's `Send`.  (2) For
Create(Block) and Undo(Block) the guard tests the block record's own
accounts: when both are attached and local, no `Send` is invoked.  The
remaining entries — Create(Note), Create(Announce), Update(Profile),
Undo(Announce), Delete(Note) — have no both-local guard and may deliver. -/
theorem dispatch_bothLocal_guarded_noSend :
    (∀ (env : Env) (msg : FromClientAPI),
      msg.OriginAccount.Domain = "" → msg.TargetAccount.Domain = "" →
      (msg.APActivityType, msg.APObjectType) ∈ guardedTable →
      ∀ o a, Effect.send o a ∉ (ProcessFromClientAPI env msg).2) ∧
    (∀ (env : Env) (msg : FromClientAPI) (b : Block) (ba ta : Account),
      (msg.APActivityType, msg.APObjectType) ∈
        [(ActivityCreate, ActivityBlock), (ActivityUndo, ActivityBlock)] →
      msg.GTSModel = .block b → b.Account = some ba → b.TargetAccount = some ta →
      ba.Domain = "" → ta.Domain = "" →
      ∀ o a, Effect.send o a ∉ (ProcessFromClientAPI env msg).2) := by
  constructor
  · rintro env ⟨O, A, M, OA, TA⟩ h1 h2 hmem
    simp only at h1 h2
    simp only [guardedTable, ActivityCreate, ActivityAccept, ActivityUndo,
      ActivityDelete, ActivityFollow, ActivityLike, ObjectProfile,
      ActorPerson, List.mem_cons, List.not_mem_nil, or_false,
      Prod.mk.injEq] at hmem
    rcases hmem with h | h | h | h | h | h | h
    · -- Create Follow
      obtain ⟨rfl, rfl⟩ := h
      cases M <;> intro o a <;>
        simp only [ProcessFromClientAPI, ActivityCreate, ActivityUpdate,
          ActivityAccept, ActivityUndo, ActivityDelete, ActivityFollow,
          ActivityLike, ActivityAnnounce, ActivityBlock, ObjectNote,
          ObjectProfile, ActorPerson, String.reduceEq, reduceIte] <;>
        first
          | simp
          | exact noSend_seqP (noSend_step (by simp))
              (by simp [federateFollow_bothLocal, h1, h2]) o a
    · -- Create Like
      obtain ⟨rfl, rfl⟩ := h
      cases M <;> intro o a <;>
        simp only [ProcessFromClientAPI, ActivityCreate, ActivityUpdate,
          ActivityAccept, ActivityUndo, ActivityDelete, ActivityFollow,
          ActivityLike, ActivityAnnounce, ActivityBlock, ObjectNote,
          ObjectProfile, ActorPerson, String.reduceEq, reduceIte] <;>
        first
          | simp
          | exact noSend_seqP (noSend_step (by simp))
              (by simp [federateFave_bothLocal, h1, h2]) o a
    · -- Accept Follow
      obtain ⟨rfl, rfl⟩ := h
      cases M <;> intro o a <;>
        simp only [ProcessFromClientAPI, ActivityCreate, ActivityUpdate,
          ActivityAccept, ActivityUndo, ActivityDelete, ActivityFollow,
          ActivityLike, ActivityAnnounce, ActivityBlock, ObjectNote,
          ObjectProfile, ActorPerson, String.reduceEq, reduceIte] <;>
        first
          | simp
          | exact noSend_seqP (noSend_step (by simp))
              (by simp [federateAccept_bothLocal, h1, h2]) o a
    · -- Undo Follow
      obtain ⟨rfl, rfl⟩ := h
      cases M <;> intro o a <;>
        simp only [ProcessFromClientAPI, ActivityCreate, ActivityUpdate,
          ActivityAccept, ActivityUndo, ActivityDelete, ActivityFollow,
          ActivityLike, ActivityAnnounce, ActivityBlock, ObjectNote,
          ObjectProfile, ActorPerson, String.reduceEq, reduceIte] <;>
        simp [federateUnfollow_bothLocal, h1, h2]
    · -- Undo Like
      obtain ⟨rfl, rfl⟩ := h
      cases M <;> intro o a <;>
        simp only [ProcessFromClientAPI, ActivityCreate, ActivityUpdate,
          ActivityAccept, ActivityUndo, ActivityDelete, ActivityFollow,
          ActivityLike, ActivityAnnounce, ActivityBlock, ObjectNote,
          ObjectProfile, ActorPerson, String.reduceEq, reduceIte] <;>
        simp [federateUnfave_bothLocal, h1, h2]
    · -- Delete Profile
      obtain ⟨rfl, rfl⟩ := h
      cases M <;> intro o a <;>
        simp [ProcessFromClientAPI, ActivityCreate, ActivityUpdate,
          ActivityAccept, ActivityUndo, ActivityDelete, ActivityFollow,
          ActivityLike, ActivityAnnounce, ActivityBlock, ObjectNote,
          ObjectProfile, ActorPerson, step]
    · -- Delete Person
      obtain ⟨rfl, rfl⟩ := h
      cases M <;> intro o a <;>
        simp [ProcessFromClientAPI, ActivityCreate, ActivityUpdate,
          ActivityAccept, ActivityUndo, ActivityDelete, ActivityFollow,
          ActivityLike, ActivityAnnounce, ActivityBlock, ObjectNote,
          ObjectProfile, ActorPerson, step]
  · rintro env ⟨O, A, M, OA, TA⟩ b ba ta hmem hM hba hta h1 h2
    simp only at hM
    subst hM
    simp only [ActivityCreate, ActivityUndo, ActivityBlock, List.mem_cons,
      List.not_mem_nil, or_false, Prod.mk.injEq] at hmem
    rcases hmem with h | h
    · -- Create Block
      obtain ⟨rfl, rfl⟩ := h
      intro o a
      simp only [ProcessFromClientAPI, ActivityCreate, ActivityUpdate,
        ActivityAccept, ActivityUndo, ActivityDelete, ActivityFollow,
        ActivityLike, ActivityAnnounce, ActivityBlock, ObjectNote,
        ObjectProfile, ActorPerson, String.reduceEq, reduceIte]
      exact noSend_seqP (noSend_step (by simp))
        (noSend_seqP (noSend_step (by simp))
          (by simp [federateBlock_bothLocal, hba, hta, h1, h2])) o a
    · -- Undo Block
      obtain ⟨rfl, rfl⟩ := h
      intro o a
      simp only [ProcessFromClientAPI, ActivityCreate, ActivityUpdate,
        ActivityAccept, ActivityUndo, ActivityDelete, ActivityFollow,
        ActivityLike, ActivityAnnounce, ActivityBlock, ObjectNote,
        ObjectProfile, ActorPerson, String.reduceEq, reduceIte]
      simp [federateUnblock_bothLocal, hba, hta, h1, h2]

/-- A follow record between the two local accounts. -/
def followLocal : Follow :=
  { ID := "01FOLLOW1", AccountID := zork.ID, TargetAccountID := admin.ID,
    Account := none,
    URI := "http://localhost:8080/users/the_mighty_zork/follow/01FOLLOW1" }

/-- An Undo(Follow) message between the two local accounts. -/
def msgUnfollowLocal : FromClientAPI :=
  { APObjectType := ActivityFollow, APActivityType := ActivityUndo,
    GTSModel := .follow followLocal, OriginAccount := zork,
    TargetAccount := admin }

/-- A block record between the two local accounts, accounts attached. -/
def blockLocal : Block :=
  { ID := "01BLK1", AccountID := zork.ID, TargetAccountID := admin.ID,
    Account := some zork, TargetAccount := some admin,
    URI := "http://localhost:8080/users/the_mighty_zork/blocks/01BLK1" }

/-- An Undo(Block) message between the two local accounts. -/
def msgUndoBlockLocal : FromClientAPI :=
  { APObjectType := ActivityBlock, APActivityType := ActivityUndo,
    GTSModel := .block blockLocal, OriginAccount := zork,
    TargetAccount := admin }

/-- C3, witness for the amended theorem: a both-local Undo(Follow) and a
both-local Undo(Block) produce no send effect. -/
theorem dispatch_bothLocal_guarded_noSend_witness :
    (∀ o a, Effect.send o a ∉ (ProcessFromClientAPI envOK msgUnfollowLocal).2) ∧
    (∀ o a, Effect.send o a ∉ (ProcessFromClientAPI envOK msgUndoBlockLocal).2) :=
  ⟨dispatch_bothLocal_guarded_noSend.1 envOK msgUnfollowLocal rfl rfl (by decide),
   dispatch_bothLocal_guarded_noSend.2 envOK msgUndoBlockLocal blockLocal zork
     admin (by decide) rfl rfl rfl rfl rfl⟩

/-- C4: each of the four Undo envelope builders (Undo of Follow, Like,
Announce, Block) wraps a freshly reconstructed copy of the original
activity — the value the type converter yields for the original model
record, which by determinism of the converter is identical (actor and
object identity included) to the activity originally built from that
record — and sets the Undo's own actor property to the wrapped
activity's actor property; the Undo of Announce also copies the wrapped
Announce's `to`/`cc` verbatim. -/
theorem federateUndo_wraps_reconstruction :
    (∀ (env : Env) (f : Follow) (o t : Account) (asF : ASFollow),
      ¬(o.Domain = "" ∧ t.Domain = "") →
      env.followToAS f o t = .ok asF →
      federateUnfollow env f o t
        = (env.sendCall o.OutboxURI
             (.undo { actor := asF.actor, object := .follow asF,
                      toRecipients := [t.URI], cc := [] }),
           [.send o.OutboxURI
             (.undo { actor := asF.actor, object := .follow asF,
                      toRecipients := [t.URI], cc := [] })])) ∧
    (∀ (env : Env) (f : StatusFave) (o t : Account) (asL : ASLike),
      ¬(o.Domain = "" ∧ t.Domain = "") →
      env.faveToAS f = .ok asL →
      federateUnfave env f o t
        = (env.sendCall o.OutboxURI
             (.undo { actor := asL.actor, object := .like asL,
                      toRecipients := [t.URI], cc := [] }),
           [.send o.OutboxURI
             (.undo { actor := asL.actor, object := .like asL,
                      toRecipients := [t.URI], cc := [] })])) ∧
    (∀ (env : Env) (boost : Status) (o t : Account) (asA : ASAnnounce),
      o.Domain = "" →
      env.boostToAS boost o t = .ok asA →
      federateUnannounce env boost o t
        = (env.sendCall o.OutboxURI
             (.undo { actor := asA.actor, object := .announce asA,
                      toRecipients := asA.toRecipients, cc := asA.cc }),
           [.send o.OutboxURI
             (.undo { actor := asA.actor, object := .announce asA,
                      toRecipients := asA.toRecipients, cc := asA.cc })])) ∧
    (∀ (env : Env) (b : Block) (ba ta : Account) (asB : ASBlock),
      b.Account = some ba → b.TargetAccount = some ta →
      ¬(ba.Domain = "" ∧ ta.Domain = "") →
      env.blockToAS { b with Account := some ba, TargetAccount := some ta }
        = .ok asB →
      federateUnblock env b
        = (env.sendCall ba.OutboxURI
             (.undo { actor := asB.actor, object := .block asB,
                      toRecipients := [ta.URI], cc := [] }),
           [.send ba.OutboxURI
             (.undo { actor := asB.actor, object := .block asB,
                      toRecipients := [ta.URI], cc := [] })])) := by
  refine ⟨?_, ?_, ?_, ?_⟩
  · intro env f o t asF hguard hconv
    simp [federateUnfollow, hguard, hconv, step]
  · intro env f o t asL hguard hconv
    simp [federateUnfave, hguard, hconv, step]
  · intro env boost o t asA hlocal hconv
    simp [federateUnannounce, hlocal, hconv, step]
  · intro env b ba ta asB hba hta hguard hconv
    simp [federateUnblock, resolveBlockAccounts, hba, hta, hguard, hconv, step]

/-- A fave by the local account on a remote status. -/
def faveRemote : StatusFave :=
  { ID := "01FAVE1", AccountID := zork.ID, TargetAccountID := foss_satan.ID,
    StatusID := "01STATUSR1",
    URI := "http://localhost:8080/users/the_mighty_zork/liked/01FAVE1" }

/-- A block of the remote account by the local account, accounts
attached. -/
def blockRemote : Block :=
  { ID := "01BLK2", AccountID := zork.ID, TargetAccountID := foss_satan.ID,
    Account := some zork, TargetAccount := some foss_satan,
    URI := "http://localhost:8080/users/the_mighty_zork/blocks/01BLK2" }

/-- C4, witness: the four Undo builders evaluated in the concrete
environment at a local-remote pair each send exactly the Undo wrapping
the reconstructed activity, actor copied from it. -/
theorem federateUndo_wraps_reconstruction_witness :
    federateUnfollow envOK followLocal zork foss_satan
      = (.ok (),
         [.send zork.OutboxURI
           (.undo { actor := [zork.URI],
                    object := .follow { actor := [zork.URI],
                                        object := [foss_satan.URI],
                                        toRecipients := [foss_satan.URI] },
                    toRecipients := [foss_satan.URI], cc := [] })]) ∧
    federateUnfave envOK faveRemote zork foss_satan
      = (.ok (),
         [.send zork.OutboxURI
           (.undo { actor := [faveRemote.AccountID],
                    object := .like { actor := [faveRemote.AccountID],
                                      object := [faveRemote.StatusID],
                                      toRecipients := [faveRemote.TargetAccountID] },
                    toRecipients := [foss_satan.URI], cc := [] })]) ∧
    federateUnannounce envOK zorkStatus zork foss_satan
      = (.ok (),
         [.send zork.OutboxURI
           (.undo { actor := [zork.URI],
                    object := .announce
                      { actor := [zork.URI], object := [zorkStatus.URI],
                        toRecipients := ["https://www.w3.org/ns/activitystreams#Public"],
                        cc := [zork.URI ++ "/followers"] },
                    toRecipients := ["https://www.w3.org/ns/activitystreams#Public"],
                    cc := [zork.URI ++ "/followers"] })]) ∧
    federateUnblock envOK blockRemote
      = (.ok (),
         [.send zork.OutboxURI
           (.undo { actor := [blockRemote.AccountID],
                    object := .block { actor := [blockRemote.AccountID],
                                       object := [blockRemote.TargetAccountID],
                                       toRecipients := [] },
                    toRecipients := [foss_satan.URI], cc := [] })]) :=
  ⟨federateUndo_wraps_reconstruction.1 envOK followLocal zork foss_satan _
     (by decide) rfl,
   federateUndo_wraps_reconstruction.2.1 envOK faveRemote zork foss_satan _
     (by decide) rfl,
   federateUndo_wraps_reconstruction.2.2.1 envOK zorkStatus zork foss_satan _
     rfl rfl,
   federateUndo_wraps_reconstruction.2.2.2 envOK blockRemote zork foss_satan _
     rfl rfl (by decide) rfl⟩

/-- C9: in the Followers collection build, (1) a follow edge whose
participant account record is gone (attached account nil and the lookup
failing with the no-entries error) is skipped and the remaining edges
still contribute; (2) any other account-lookup error aborts the whole
build with that error; (3) every item of a successful build is the URI
of a resolved participant account of one of the follow edges. -/
theorem followers_skip_stale_abort_other :
    (∀ (env : Env) (f : Follow) (rest : List Follow),
      f.Account = none → env.getAccountByID f.AccountID = .error .noEntries →
      collectFollowerItems env (f :: rest) = collectFollowerItems env rest) ∧
    (∀ (env : Env) (f : Follow) (rest : List Follow) (m : String),
      f.Account = none → env.getAccountByID f.AccountID = .error (.other m) →
      collectFollowerItems env (f :: rest) = .error (.other m)) ∧
    (∀ (env : Env) (follows : List Follow) (items : List String),
      collectFollowerItems env follows = .ok items →
      ∀ u ∈ items, ∃ f ∈ follows, ∃ a : Account,
        (f.Account = some a ∨
          (f.Account = none ∧ env.getAccountByID f.AccountID = .ok a)) ∧
        u = a.URI) := by
  refine ⟨?_, ?_, ?_⟩
  · intro env f rest hf herr
    simp [collectFollowerItems, hf, herr]
  · intro env f rest m hf herr
    simp [collectFollowerItems, hf, herr]
  · intro env follows
    induction follows with
    | nil =>
      intro items h u hu
      simp only [collectFollowerItems] at h
      obtain rfl : ([] : List String) = items := by
        simpa using h
      simp at hu
    | cons f rest ih =>
      intro items h u hu
      rcases hf : f.Account with _ | a
      · rcases herr : env.getAccountByID f.AccountID with e | a
        · cases e with
          | noEntries =>
            rw [show collectFollowerItems env (f :: rest)
                  = collectFollowerItems env rest by
                simp [collectFollowerItems, hf, herr]] at h
            obtain ⟨g, hg, a, ha, hu'⟩ := ih items h u hu
            exact ⟨g, List.mem_cons_of_mem f hg, a, ha, hu'⟩
          | other m =>
            rw [show collectFollowerItems env (f :: rest)
                  = .error (.other m) by
                simp [collectFollowerItems, hf, herr]] at h
            simp at h
        · rcases hrest : collectFollowerItems env rest with e | items'
          · rw [show collectFollowerItems env (f :: rest) = .error e by
                simp [collectFollowerItems, hf, herr, hrest]] at h
            simp at h
          · rw [show collectFollowerItems env (f :: rest)
                  = .ok (a.URI :: items') by
                simp [collectFollowerItems, hf, herr, hrest]] at h
            obtain rfl : a.URI :: items' = items := by simpa using h
            rcases List.mem_cons.mp hu with rfl | hu'
            · exact ⟨f, List.mem_cons_self f rest, a, .inr ⟨hf, herr⟩, rfl⟩
            · obtain ⟨g, hg, b, hb, hub⟩ := ih items' hrest u hu'
              exact ⟨g, List.mem_cons_of_mem f hg, b, hb, hub⟩
      · rcases hrest : collectFollowerItems env rest with e | items'
        · rw [show collectFollowerItems env (f :: rest) = .error e by
              simp [collectFollowerItems, hf, hrest]] at h
          simp at h
        · rw [show collectFollowerItems env (f :: rest)
                = .ok (a.URI :: items') by
              simp [collectFollowerItems, hf, hrest]] at h
          obtain rfl : a.URI :: items' = items := by simpa using h
          rcases List.mem_cons.mp hu with rfl | hu'
          · exact ⟨f, List.mem_cons_self f rest, a, .inl hf, rfl⟩
          · obtain ⟨g, hg, b, hb, hub⟩ := ih items' hrest u hu'
            exact ⟨g, List.mem_cons_of_mem f hg, b, hb, hub⟩

/-- A follow edge whose participant account record has vanished. -/
def followGone : Follow :=
  { ID := "01FGONE", AccountID := "01GONE", TargetAccountID := zork.ID,
    Account := none, URI := "http://somewhere.example/follow/01FGONE" }

/-- A follow edge whose participant lookup hits a storage failure. -/
def followDBFail : Follow :=
  { ID := "01FDBFAIL", AccountID := "01DBFAIL", TargetAccountID := zork.ID,
    Account := none, URI := "http://somewhere.example/follow/01FDBFAIL" }

/-- A follow edge whose participant resolves to the admin account. -/
def followResolved : Follow :=
  { ID := "01FOK", AccountID := admin.ID, TargetAccountID := zork.ID,
    Account := none, URI := "http://localhost:8080/users/admin/follow/01FOK" }

/-- An environment whose account-by-ID lookup distinguishes a vanished
account, a storage failure, and a resolvable account. -/
def envFollowers : Env :=
  { envOK with
    getAccountByID := fun id =>
      if id = "01GONE" then .error .noEntries
      else if id = "01DBFAIL" then .error (.other "connection reset")
      else .ok admin }

/-- C9, witness: the vanished edge is skipped, the storage failure
aborts, and the successful build's only item is the resolved
participant's URI. -/
theorem followers_skip_stale_abort_other_witness :
    collectFollowerItems envFollowers [followGone, followResolved]
      = collectFollowerItems envFollowers [followResolved] ∧
    collectFollowerItems envFollowers [followDBFail, followResolved]
      = .error (.other "connection reset") ∧
    (∀ u ∈ ["http://localhost:8080/users/admin"],
      ∃ f ∈ [followResolved], ∃ a : Account,
        (f.Account = some a ∨
          (f.Account = none ∧ envFollowers.getAccountByID f.AccountID = .ok a)) ∧
        u = a.URI) :=
  ⟨followers_skip_stale_abort_other.1 envFollowers followGone [followResolved]
     rfl rfl,
   followers_skip_stale_abort_other.2.1 envFollowers followDBFail
     [followResolved] "connection reset" rfl rfl,
   followers_skip_stale_abort_other.2.2 envFollowers [followResolved]
     ["http://localhost:8080/users/admin"] rfl⟩

/-- Sequencing with a successful first computation concatenates traces. -/
theorem seqP_ok_trace {x : Traced} (y : Traced) (hx : x.1 = .ok ()) :
    (seqP x y).2 = x.2 ++ y.2 := by
  obtain ⟨rx, tx⟩ := x
  cases rx with
  | error e => simp at hx
  | ok u => rfl

/-- An effect of a sequenced trace comes from the first computation, or
the first computation succeeded and it comes from the second. -/
theorem mem_seqP {e : Effect} {x y : Traced} (h : e ∈ (seqP x y).2) :
    e ∈ x.2 ∨ (x.1 = .ok () ∧ e ∈ y.2) := by
  obtain ⟨rx, tx⟩ := x
  cases rx with
  | error er => exact .inl h
  | ok u =>
    rcases List.mem_append.mp h with h' | h'
    · exact .inl h'
    · exact .inr ⟨rfl, h'⟩

/-- Every effect of the attachment-deletion loop is a media deletion,
and on success the trace is exactly one media deletion per attachment,
in order. -/
theorem deleteAttachments_shape (env : Env) (l : List String) :
    (∀ e ∈ (deleteAttachments env l).2, ∃ a, e = Effect.deleteMedia a) ∧
    ((deleteAttachments env l).1 = .ok () →
      (deleteAttachments env l).2 = l.map Effect.deleteMedia) := by
  induction l with
  | nil => simp [deleteAttachments]
  | cons a rest ih =>
    rcases hc : env.mediaDeleteCall a with e | u
    · refine ⟨?_, ?_⟩
      · intro x hx
        simp only [deleteAttachments, step, hc, seqP] at hx
        simp only [List.mem_singleton] at hx
        exact ⟨a, hx⟩
      · intro hok
        simp [deleteAttachments, step, hc, seqP] at hok
    · refine ⟨?_, ?_⟩
      · intro x hx
        simp only [deleteAttachments, step, hc, seqP, List.singleton_append,
          List.mem_cons] at hx
        rcases hx with rfl | hx
        · exact ⟨a, rfl⟩
        · exact ih.1 x hx
      · intro hok
        simp only [deleteAttachments, step, hc, seqP] at hok ⊢
        simp [ih.2 hok]

/-- Every effect of the mention-deletion loop is a mention deletion, and
on success the trace is exactly one mention deletion per mention, in
order. -/
theorem deleteMentions_shape (env : Env) (l : List String) :
    (∀ e ∈ (deleteMentions env l).2, ∃ m, e = Effect.deleteMention m) ∧
    ((deleteMentions env l).1 = .ok () →
      (deleteMentions env l).2 = l.map Effect.deleteMention) := by
  induction l with
  | nil => simp [deleteMentions]
  | cons m rest ih =>
    rcases hc : env.deleteMentionCall m with e | u
    · refine ⟨?_, ?_⟩
      · intro x hx
        simp only [deleteMentions, step, hc, seqP] at hx
        simp only [List.mem_singleton] at hx
        exact ⟨m, hx⟩
      · intro hok
        simp [deleteMentions, step, hc, seqP] at hok
    · refine ⟨?_, ?_⟩
      · intro x hx
        simp only [deleteMentions, step, hc, seqP, List.singleton_append,
          List.mem_cons] at hx
        rcases hx with rfl | hx
        · exact ⟨m, rfl⟩
        · exact ih.1 x hx
      · intro hok
        simp only [deleteMentions, step, hc, seqP] at hok ⊢
        simp [ih.2 hok]

/-- If `federateStatusDelete` put a send in its trace, the status's
account resolved to a local account, the status converted successfully,
and the trace is exactly one send of the Delete built from that
conversion (actor = author, `to`/`cc` copied from the conversion). -/
theorem federateStatusDelete_send_char (env : Env) (status : Status)
    {o : String} {act : Activity}
    (h : Effect.send o act ∈ (federateStatusDelete env status).2) :
    ∃ (status' : Status) (account : Account) (asNote : ASNote),
      resolveStatusAccount env status = .ok (status', account) ∧
      account.Domain = "" ∧
      env.statusToAS status' = .ok asNote ∧
      o = account.OutboxURI ∧
      act = .delete { actor := [account.URI], object := asNote,
                      toRecipients := asNote.toRecipients, cc := asNote.cc } ∧
      (federateStatusDelete env status).2 = [Effect.send o act] := by
  rcases hres : resolveStatusAccount env status with e | p
  · simp [federateStatusDelete, hres] at h
  · obtain ⟨status', account⟩ := p
    by_cases hdom : account.Domain = ""
    · rcases hconv : env.statusToAS status' with e | asNote
      · simp [federateStatusDelete, hres, hdom, hconv] at h
      · have htr : (federateStatusDelete env status).2
            = [Effect.send account.OutboxURI
                 (.delete { actor := [account.URI], object := asNote,
                            toRecipients := asNote.toRecipients,
                            cc := asNote.cc })] := by
          simp [federateStatusDelete, hres, hdom, hconv, step]
        rw [htr] at h
        simp only [List.mem_singleton] at h
        injection h with ho hact
        subst ho
        subst hact
        exact ⟨status', account, asNote, rfl, hdom, hconv, rfl, rfl, htr⟩
    · simp [federateStatusDelete, hres, hdom] at h

/-- C5: whenever dispatching a Delete(Note) action message reaches a
federation `Send`, the dispatcher has already deleted every attachment
and every mention of the status, deleted its notifications, and removed
it from all timelines — the trace is exactly those deletions, in order,
followed by the single send — and the sent activity is a Delete whose
`to` and `cc` are copied from the status's ActivityStreams
representation. -/
theorem dispatch_deleteNote_deletes_before_send (env : Env)
    (msg : FromClientAPI) (s : Status)
    (hA : msg.APActivityType = ActivityDelete)
    (hO : msg.APObjectType = ObjectNote)
    (hM : msg.GTSModel = .status s)
    (o : String) (act : Activity)
    (hsend : Effect.send o act ∈ (ProcessFromClientAPI env msg).2) :
    ∃ (status' : Status) (account : Account) (asNote : ASNote),
      resolveStatusAccount env (statusToDeleteOf s msg.OriginAccount)
        = .ok (status', account) ∧
      env.statusToAS status' = .ok asNote ∧
      o = account.OutboxURI ∧
      act = .delete { actor := [account.URI], object := asNote,
                      toRecipients := asNote.toRecipients, cc := asNote.cc } ∧
      (ProcessFromClientAPI env msg).2
        = (statusToDeleteOf s msg.OriginAccount).AttachmentIDs.map Effect.deleteMedia
          ++ (statusToDeleteOf s msg.OriginAccount).MentionIDs.map Effect.deleteMention
          ++ [Effect.deleteNotifications (statusToDeleteOf s msg.OriginAccount).ID,
              Effect.deleteStatusFromTimelines (statusToDeleteOf s msg.OriginAccount).ID,
              Effect.send o act] := by
  obtain ⟨O, A, M, OA, TA⟩ := msg
  simp only at hA hO hM
  subst hA hO hM
  have hP : ProcessFromClientAPI env ⟨ObjectNote, ActivityDelete, .status s, OA, TA⟩
      = seqP (deleteAttachments env (statusToDeleteOf s OA).AttachmentIDs)
          (seqP (deleteMentions env (statusToDeleteOf s OA).MentionIDs)
            (seqP (step (.deleteNotifications (statusToDeleteOf s OA).ID)
                (env.deleteNotificationsCall (statusToDeleteOf s OA).ID))
              (seqP (step (.deleteStatusFromTimelines (statusToDeleteOf s OA).ID)
                  (env.deleteStatusFromTimelinesCall (statusToDeleteOf s OA)))
                (federateStatusDelete env (statusToDeleteOf s OA))))) := by
    simp [ProcessFromClientAPI, ActivityDelete, ActivityCreate, ActivityUpdate,
      ActivityAccept, ActivityUndo, ObjectNote]
  rw [hP] at hsend ⊢
  -- peel the four deletion stages off the membership fact
  rcases mem_seqP hsend with hin | ⟨hok1, hsend⟩
  · obtain ⟨_, h⟩ := (deleteAttachments_shape env _).1 _ hin
    simp at h
  rcases mem_seqP hsend with hin | ⟨hok2, hsend⟩
  · obtain ⟨_, h⟩ := (deleteMentions_shape env _).1 _ hin
    simp at h
  rcases mem_seqP hsend with hin | ⟨hok3, hsend⟩
  · simp [step] at hin
  rcases mem_seqP hsend with hin | ⟨hok4, hsend⟩
  · simp [step] at hin
  obtain ⟨status', account, asNote, hres, hdom, hconv, ho, hact, htr⟩ :=
    federateStatusDelete_send_char env _ hsend
  refine ⟨status', account, asNote, hres, hconv, ho, hact, ?_⟩
  rw [seqP_ok_trace _ hok1, seqP_ok_trace _ hok2, seqP_ok_trace _ hok3,
    seqP_ok_trace _ hok4, (deleteAttachments_shape env _).2 hok1,
    (deleteMentions_shape env _).2 hok2, htr]
  simp [step]

/-- A Delete(Note) message for the local account's status. -/
def msgDeleteNote : FromClientAPI :=
  { APObjectType := ObjectNote, APActivityType := ActivityDelete,
    GTSModel := .status zorkStatus, OriginAccount := zork,
    TargetAccount := zork }

/-- The Delete activity the concrete environment emits for
`zorkStatus`. -/
def zorkDeleteAct : Activity :=
  .delete { actor := [zork.URI],
            object := { id := zorkStatus.URI, attributedTo := zork.ID,
                        toRecipients := ["https://www.w3.org/ns/activitystreams#Public"],
                        cc := ["http://localhost:8080/users/the_mighty_zork/followers"] },
            toRecipients := ["https://www.w3.org/ns/activitystreams#Public"],
            cc := ["http://localhost:8080/users/the_mighty_zork/followers"] }

/-- C5, witness: the concrete Delete(Note) dispatch deletes both
attachments, the mention, the notifications and the timeline placement,
in order, before the single send of the Delete with copied `to`/`cc`. -/
theorem dispatch_deleteNote_deletes_before_send_witness :
    ∃ (status' : Status) (account : Account) (asNote : ASNote),
      resolveStatusAccount envOK
          (statusToDeleteOf zorkStatus msgDeleteNote.OriginAccount)
        = .ok (status', account) ∧
      envOK.statusToAS status' = .ok asNote ∧
      zork.OutboxURI = account.OutboxURI ∧
      zorkDeleteAct = .delete { actor := [account.URI], object := asNote,
                                toRecipients := asNote.toRecipients,
                                cc := asNote.cc } ∧
      (ProcessFromClientAPI envOK msgDeleteNote).2
        = (statusToDeleteOf zorkStatus msgDeleteNote.OriginAccount).AttachmentIDs.map
            Effect.deleteMedia
          ++ (statusToDeleteOf zorkStatus msgDeleteNote.OriginAccount).MentionIDs.map
              Effect.deleteMention
          ++ [Effect.deleteNotifications
                (statusToDeleteOf zorkStatus msgDeleteNote.OriginAccount).ID,
              Effect.deleteStatusFromTimelines
                (statusToDeleteOf zorkStatus msgDeleteNote.OriginAccount).ID,
              Effect.send zork.OutboxURI zorkDeleteAct] :=
  dispatch_deleteNote_deletes_before_send envOK msgDeleteNote zorkStatus
    rfl rfl rfl zork.OutboxURI zorkDeleteAct (by decide)

/-- The predicate a reply must satisfy to appear in a replies page:
Public or Unlocked visibility, author different from the requested
account when `onlyOtherAccounts` is set, and visible both to the status
owner and to the requesting account. -/
def replyShown (env : Env) (requestedAccount requestingAccount : Account)
    (onlyOtherAccounts : Bool) (r : Status) : Bool :=
  if r.Visibility ≠ .public ∧ r.Visibility ≠ .unlocked then false
  else if onlyOtherAccounts ∧ r.AccountID = requestedAccount.ID then false
  else if ¬ visOK (env.statusVisible r requestedAccount) then false
  else if ¬ visOK (env.statusVisible r requestingAccount) then false
  else true

/-- The reply-filtering loop keeps exactly the replies satisfying
`replyShown`, in order, mapped to their (ID, URI) pairs. -/
theorem filterReplies_eq (env : Env) (X R : Account) (only : Bool)
    (l : List Status) :
    filterReplies env X R only l
      = (l.filter (replyShown env X R only)).map (fun r => (r.ID, r.URI)) := by
  induction l with
  | nil => rfl
  | cons r rest ih =>
    rw [List.filter_cons]
    by_cases h1 : r.Visibility ≠ .public ∧ r.Visibility ≠ .unlocked
    · simp [filterReplies, replyShown, h1, ih]
    · by_cases h2 : only ∧ r.AccountID = X.ID
      · obtain ⟨h2a, h2b⟩ := h2
        subst h2a
        simp [filterReplies, replyShown, h1, h2b, ih]
      · by_cases h3 : visOK (env.statusVisible r X)
        · by_cases h4 : visOK (env.statusVisible r R)
          · simp [filterReplies, replyShown, h1, h2, h3, h4, ih]
          · simp [filterReplies, replyShown, h1, h2, h3, h4, ih]
        · simp [filterReplies, replyShown, h1, h2, h3, ih]

/-- C6: on the authorized success path, the replies collection follows
the three-branch policy: (1) no page requested — the bare collection,
which carries no items; (2) page requested without the
`only_other_accounts` query parameter — only the collection's first
page, still with no items; (3) page requested with the parameter — a
page whose items are exactly the URIs of the immediate child statuses
with ID greater than `min_id` that are Public or Unlocked, whose author
differs from the requested account when `only_other_accounts` is set,
and that are visible both to the status owner and to the requester. -/
theorem getFediStatusReplies_three_branches (env : Env)
    (u sid minID : String) (url : URL) (page onlyOther : Bool)
    (X R : Account) (uri : String) (s : Status)
    (hacct : env.getLocalAccountByUsername u = .ok X)
    (hauth : env.authenticateFederatedRequest u = .ok (uri, true))
    (hremote : env.getRemoteAccount u uri false = .ok R)
    (hblocked : env.isBlocked X.ID R.ID true = .ok false)
    (hstatus : env.getStatusWhere sid X.ID = .ok s)
    (hvis : env.statusVisible s R = .ok true) :
    (page = false →
      GetFediStatusReplies env u sid page onlyOther minID url
        = .ok (.repliesCollection (statusToASRepliesCollection s onlyOther))) ∧
    (page = true → url.queryOnlyOtherAccounts = "" →
      GetFediStatusReplies env u sid page onlyOther minID url
        = .ok (.repliesPage (statusToASRepliesCollection s onlyOther).first) ∧
      (statusToASRepliesCollection s onlyOther).first.items = []) ∧
    (page = true → url.queryOnlyOtherAccounts ≠ "" →
      GetFediStatusReplies env u sid page onlyOther minID url
        = .ok (.repliesPage
            { id := s.URI ++ "/replies?page=true",
              onlyOtherAccounts := onlyOther, minID := minID,
              items := ((getStatusChildren env s minID).filter
                  (replyShown env X R onlyOther)).map Status.URI })) := by
  refine ⟨?_, ?_, ?_⟩
  · rintro rfl
    simp [GetFediStatusReplies, authorizeFediRequest, hacct, hauth, hremote,
      hblocked, hstatus, hvis]
  · rintro rfl hq
    refine ⟨?_, rfl⟩
    simp [GetFediStatusReplies, authorizeFediRequest, hacct, hauth, hremote,
      hblocked, hstatus, hvis, hq]
  · rintro rfl hq
    simp only [GetFediStatusReplies, authorizeFediRequest, hacct, hauth,
      hremote, hblocked, hstatus, hvis, hq, filterReplies_eq,
      statusURIsToASRepliesPage]
    simp [hstatus, hvis, List.map_map, Function.comp_def]

/-- A public reply by the requested account itself. -/
def replyByZork : Status :=
  { ID := "01R1",
    URI := "http://localhost:8080/users/the_mighty_zork/statuses/01R1",
    AccountID := zork.ID, Account := some zork, Visibility := .public,
    Federated := true, AttachmentIDs := [], MentionIDs := [] }

/-- A public reply by another account. -/
def replyByAdmin : Status :=
  { ID := "01R2", URI := "http://localhost:8080/users/admin/statuses/01R2",
    AccountID := admin.ID, Account := some admin, Visibility := .public,
    Federated := true, AttachmentIDs := [], MentionIDs := [] }

/-- A direct-visibility reply (never shown in the replies page). -/
def replyPrivate : Status :=
  { ID := "01R3", URI := "http://localhost:8080/users/admin/statuses/01R3",
    AccountID := admin.ID, Account := some admin, Visibility := .direct,
    Federated := true, AttachmentIDs := [], MentionIDs := [] }

/-- A public reply with an ID below the requested `min_id`. -/
def replyOld : Status :=
  { ID := "00R0", URI := "http://localhost:8080/users/admin/statuses/00R0",
    AccountID := admin.ID, Account := some admin, Visibility := .public,
    Federated := true, AttachmentIDs := [], MentionIDs := [] }

/-- An environment whose status has four immediate children exercising
each filter of the replies page. -/
def envReplies : Env :=
  { envOK with
    statusChildren := fun _ => [replyByZork, replyByAdmin, replyPrivate, replyOld] }

/-- A replies request URL carrying `only_other_accounts=true`. -/
def urlOnlyOther : URL :=
  { raw := "http://localhost:8080/users/the_mighty_zork/statuses/01F8MHAMCHF6Y650WCRSCP4WMY/replies",
    queryOnlyOtherAccounts := "true" }

/-- C6, witness: of the four children, the reply by the requested
account, the direct-visibility reply and the reply below `min_id` are
filtered out; the three branches return the bare collection, the bare
first page, and exactly the remaining reply's URI, respectively. -/
theorem getFediStatusReplies_three_branches_witness :
    GetFediStatusReplies envReplies zork.Username zorkStatus.ID false true "01"
        urlOnlyOther
      = .ok (.repliesCollection (statusToASRepliesCollection zorkStatus true)) ∧
    GetFediStatusReplies envReplies zork.Username zorkStatus.ID true true "01"
        userURL
      = .ok (.repliesPage (statusToASRepliesCollection zorkStatus true).first) ∧
    GetFediStatusReplies envReplies zork.Username zorkStatus.ID true true "01"
        urlOnlyOther
      = .ok (.repliesPage
          { id := zorkStatus.URI ++ "/replies?page=true",
            onlyOtherAccounts := true, minID := "01",
            items := [replyByAdmin.URI] }) := by
  refine ⟨?_, ?_, ?_⟩
  · exact (getFediStatusReplies_three_branches envReplies zork.Username
      zorkStatus.ID "01" urlOnlyOther false true zork foss_satan foss_satan.URI
      zorkStatus rfl rfl rfl rfl rfl rfl).1 rfl
  · exact ((getFediStatusReplies_three_branches envReplies zork.Username
      zorkStatus.ID "01" userURL true true zork foss_satan foss_satan.URI
      zorkStatus rfl rfl rfl rfl rfl rfl).2.1 rfl rfl).1
  · have h := (getFediStatusReplies_three_branches envReplies zork.Username
      zorkStatus.ID "01" urlOnlyOther true true zork foss_satan foss_satan.URI
      zorkStatus rfl rfl rfl rfl rfl rfl).2.2 rfl (by decide)
    have hitems : ((getStatusChildren envReplies zorkStatus "01").filter
          (replyShown envReplies zork foss_satan true)).map Status.URI
        = [replyByAdmin.URI] := by
      simp [getStatusChildren, envReplies, envOK, replyShown, visOK,
        replyByZork, replyByAdmin, replyPrivate, replyOld, zork, admin,
        zorkStatus]
      decide
    rw [h, hitems]

end GTS
